import Mathlib

/-!
# CS-330 final project: texture registry, orbit camera and scene

A shallow embedding of `SceneManager.cpp` (the texture slots and their lookup, the material
lookup, the shading calls and the fixed scene) and of `ViewManager.cpp` (the camera and the
mouse callback), followed by the properties proved about them.

Conventions of the embedding

* A C++ method becomes a function from the object state (and the values handed in by the
  outside world) to its return value paired with the new object state.
* `std::cout`, `std::cerr`, the calls made on OpenGL / stb_image and the function-local
  `static` set of `FindTextureSlot` are fields of the state, so every effect is visible.
* `float` is an arbitrary linearly ordered field `α` (exact arithmetic); `cos`, `sin`,
  `sqrt` and `π` are handed in as a `CMath α`, and are instantiated with the real
  functions where a statement is about trigonometry. The `float` literals of the scene
  are rationals.
* `ShaderManager` and `ShapeMeshes` are not among the sources: the first is a map from
  uniform names to values, the second the list of load and draw calls made on it.
-/

/-! ## SceneManager.h / SceneManager.cpp -/

/-- Entry of `m_textureIDs`: `struct TEXTURE_ID { unsigned int ID; std::string tag; }`. -/
structure TEXTURE_ID where
  ID : Nat
  tag : String
deriving DecidableEq, Repr

/-- What `stbi_load(filename, &width, &height, &colorChannels, 0)` reports for an image
it could decode (a non-null pixel pointer). -/
structure Image where
  width : Int
  height : Int
  colorChannels : Int
deriving DecidableEq, Repr

/-- One line written to `std::cout` / `std::cerr`, one constructor per output statement. -/
inductive Diag where
  /-- Line 123, `"Error: Too many textures loaded."`. -/
  | tooManyTextures
  /-- Line 140, `"Successfully loaded image: " filename ", width: " .. -/
  | imageLoaded (filename : String) (width height colorChannels : Int)
  /-- Line 159, `"Error: Not implemented to handle image with " n " channels"`. -/
  | channelsNotImplemented (colorChannels : Int)
  /-- Line 176, `"Texture registered: " tag " ID: " id`. -/
  | textureRegistered (tag : String) (textureID : Nat)
  /-- Line 182, `"Error: Could not load image: " filename`. -/
  | couldNotLoadImage (filename : String)
  /-- Line 254, `"Error: Could not find texture slot for tag: " tag`. -/
  | slotNotFound (tag : String)
deriving DecidableEq, Repr

/-- The text of a diagnostic line as the source writes it. -/
def Diag.text : Diag → String
  | .tooManyTextures => "Error: Too many textures loaded."
  | .imageLoaded f w h c =>
    "Successfully loaded image: " ++ f ++ ", width: " ++ toString w ++ ", height: " ++
      toString h ++ ", channels: " ++ toString c
  | .channelsNotImplemented c =>
    "Error: Not implemented to handle image with " ++ toString c ++ " channels"
  | .textureRegistered tag id => "Texture registered: " ++ tag ++ " ID: " ++ toString id
  | .couldNotLoadImage f => "Error: Could not load image: " ++ f
  | .slotNotFound tag => "Error: Could not find texture slot for tag: " ++ tag

/-- Pixel formats passed to `glTexImage2D`. -/
inductive GLFormat where
  | rgb
  | rgba
deriving DecidableEq, Repr

/-- Calls the texture code makes on stb_image and OpenGL, recorded in program order. -/
inductive ExtCall where
  | stbi_set_flip_vertically_on_load
  | stbi_image_free
  /-- `glGenTextures(1, &textureID)` storing `name` into `textureID`. -/
  | glGenTextures (name : Nat)
  /-- `glBindTexture(GL_TEXTURE_2D, name)`. -/
  | glBindTexture (name : Nat)
  | glTexParameteri_WRAP_S_REPEAT
  | glTexParameteri_WRAP_T_REPEAT
  | glTexParameteri_MIN_FILTER_LINEAR
  | glTexParameteri_MAG_FILTER_LINEAR
  | glTexImage2D (format : GLFormat) (width height : Int)
  | glGenerateMipmap
  /-- `glActiveTexture(GL_TEXTURE0 + i)`. -/
  | glActiveTexture (i : Nat)
  /-- `glDeleteTextures(1, &name)`. -/
  | glDeleteTextures (name : Nat)
deriving DecidableEq, Repr

/-- The texture members of a `SceneManager` together with the process state its texture
methods read and write.

* `m_loadedTextures` is an `int` that starts at 0 and is only ever incremented, by one, while
  it is below 16; it is a natural number here and `loaded_le` records that it indexes the
  16-element array `m_textureIDs`.
* `missingTextures` is the `static std::unordered_set<std::string>` of `FindTextureSlot`.
* `cout`, `cerr` are the lines written so far, `ext` the stb_image / OpenGL calls so far. -/
structure SceneManager where
  m_loadedTextures : Nat
  m_textureIDs : Fin 16 → TEXTURE_ID
  loaded_le : m_loadedTextures ≤ 16
  missingTextures : Finset String
  cout : List Diag
  cerr : List Diag
  ext : List ExtCall

namespace SceneManager

/-- The constructor `SceneManager::SceneManager` (lines 22-28) at the start of the process:
no texture loaded, every entry `{ID = (unsigned)-1, tag = ""}`, nothing written yet. -/
def construct : SceneManager where
  m_loadedTextures := 0
  m_textureIDs := fun _ => { ID := 4294967295, tag := "" }
  loaded_le := Nat.zero_le 16
  missingTextures := ∅
  cout := []
  cerr := []
  ext := []

/-- The calls of the loop `for (i = 0; i < m_loadedTextures; i++)` in `BindGLTextures`, at
index `i` with `k` iterations to go. -/
def BindGLTextures.loop (ids : Fin 16 → TEXTURE_ID) :
    (k i : Nat) → i + k ≤ 16 → List ExtCall
  | 0, _, _ => []
  | k + 1, i, h =>
    ExtCall.glActiveTexture i :: ExtCall.glBindTexture (ids ⟨i, by omega⟩).ID ::
      BindGLTextures.loop ids k (i + 1) (by omega)

/-- `SceneManager::BindGLTextures` (lines 194-200). -/
def BindGLTextures (s : SceneManager) : SceneManager :=
  { s with
    ext := s.ext ++
      BindGLTextures.loop s.m_textureIDs s.m_loadedTextures 0 (by simpa using s.loaded_le) }

/-- `SceneManager::CreateGLTexture` (lines 121-186). `image` is what `stbi_load` returns for
`filename` (`none` for a null pointer) and `textureID` the name `glGenTextures` hands out. -/
def CreateGLTexture (s : SceneManager) (filename : String) (tag : String)
    (image : Option Image) (textureID : Nat) : Bool × SceneManager :=
  if h : s.m_loadedTextures ≥ 16 then
    (false, { s with cerr := s.cerr ++ [Diag.tooManyTextures] })
  else
    let s1 := { s with ext := s.ext ++ [ExtCall.stbi_set_flip_vertically_on_load] }
    match image with
    | some img =>
      let s2 := { s1 with
        cout := s1.cout ++ [Diag.imageLoaded filename img.width img.height img.colorChannels]
        ext := s1.ext ++ [ExtCall.glGenTextures textureID, ExtCall.glBindTexture textureID,
          ExtCall.glTexParameteri_WRAP_S_REPEAT, ExtCall.glTexParameteri_WRAP_T_REPEAT,
          ExtCall.glTexParameteri_MIN_FILTER_LINEAR, ExtCall.glTexParameteri_MAG_FILTER_LINEAR] }
      let registered (format : GLFormat) : Bool × SceneManager :=
        let s3 : SceneManager := { s2 with
          ext := s2.ext ++ [ExtCall.glTexImage2D format img.width img.height,
            ExtCall.glGenerateMipmap, ExtCall.stbi_image_free, ExtCall.glBindTexture 0]
          m_textureIDs := Function.update s2.m_textureIDs
            ⟨s.m_loadedTextures, Nat.lt_of_not_le h⟩ { ID := textureID, tag := tag }
          m_loadedTextures := s.m_loadedTextures + 1
          loaded_le := Nat.succ_le_of_lt (Nat.lt_of_not_le h) }
        let s4 := { s3 with cout := s3.cout ++ [Diag.textureRegistered tag textureID] }
        (true, BindGLTextures s4)
      if img.colorChannels = 3 then registered GLFormat.rgb
      else if img.colorChannels = 4 then registered GLFormat.rgba
      else
        (false, { s2 with
          cout := s2.cout ++ [Diag.channelsNotImplemented img.colorChannels]
          ext := s2.ext ++ [ExtCall.stbi_image_free] })
    | none => (false, { s1 with cout := s1.cout ++ [Diag.couldNotLoadImage filename] })

/-- The calls of the loop in `DestroyGLTextures`, at index `i` with `k` iterations to go. -/
def DestroyGLTextures.loop (ids : Fin 16 → TEXTURE_ID) :
    (k i : Nat) → i + k ≤ 16 → List ExtCall
  | 0, _, _ => []
  | k + 1, i, h =>
    ExtCall.glDeleteTextures (ids ⟨i, by omega⟩).ID ::
      DestroyGLTextures.loop ids k (i + 1) (by omega)

/-- `SceneManager::DestroyGLTextures` (lines 208-212). -/
def DestroyGLTextures (s : SceneManager) : SceneManager :=
  { s with
    ext := s.ext ++
      DestroyGLTextures.loop s.m_textureIDs s.m_loadedTextures 0 (by simpa using s.loaded_le) }

/-- The `for` loop of `FindTextureSlot` (lines 246-251), at index `i` with `k` iterations to
go: the index at which it returns, or `none` when it runs to the end. -/
def FindTextureSlot.loop (ids : Fin 16 → TEXTURE_ID) (tag : String) :
    (k i : Nat) → i + k ≤ 16 → Option Nat
  | 0, _, _ => none
  | k + 1, i, h =>
    if (ids ⟨i, by omega⟩).tag = tag then some i
    else FindTextureSlot.loop ids tag k (i + 1) (by omega)

/-- `SceneManager::FindTextureSlot` (lines 243-259). -/
def FindTextureSlot (s : SceneManager) (tag : String) : Int × SceneManager :=
  match FindTextureSlot.loop s.m_textureIDs tag s.m_loadedTextures 0
      (by simpa using s.loaded_le) with
  | some i => ((i : Int), { s with missingTextures := s.missingTextures.erase tag })
  | none =>
    if tag ∉ s.missingTextures then
      (-1, { s with
        cout := s.cout ++ [Diag.slotNotFound tag]
        missingTextures := insert tag s.missingTextures })
    else
      (-1, s)

/-- A call a client makes on the texture registry, with the values the outside world hands
in during the call. -/
inductive TextureCall where
  | CreateGLTexture (filename tag : String) (image : Option Image) (textureID : Nat)
  | FindTextureSlot (tag : String)
deriving DecidableEq, Repr

/-- The value a `TextureCall` returned. -/
inductive TextureReturn where
  | bool (b : Bool)
  | int (i : Int)
deriving DecidableEq, Repr

/-- Performs one call. -/
def call (s : SceneManager) : TextureCall → TextureReturn × SceneManager
  | .CreateGLTexture filename tag image textureID =>
    (TextureReturn.bool (s.CreateGLTexture filename tag image textureID).1,
      (s.CreateGLTexture filename tag image textureID).2)
  | .FindTextureSlot tag =>
    (TextureReturn.int (s.FindTextureSlot tag).1, (s.FindTextureSlot tag).2)

/-- Performs the calls in order; returns each call with the value it returned, and the
final state. -/
def run (s : SceneManager) : List TextureCall → List (TextureCall × TextureReturn) × SceneManager
  | [] => ([], s)
  | c :: cs => ((c, (s.call c).1) :: ((s.call c).2.run cs).1, ((s.call c).2.run cs).2)

end SceneManager

/-- Two-slot registry used to try the definitions. -/
def demoRegistry : SceneManager :=
  ((SceneManager.construct.CreateGLTexture "a.jpg" "dome" (some ⟨4, 4, 3⟩) 7).2.CreateGLTexture
    "b.png" "hull" (some ⟨2, 2, 4⟩) 9).2

/-- Registry whose sixteen slots are all in use. -/
def fullRegistry : SceneManager where
  m_loadedTextures := 16
  m_textureIDs := fun i => { ID := i.val + 1, tag := "t" ++ toString i.val }
  loaded_le := Nat.le_refl 16
  missingTextures := ∅
  cout := []
  cerr := []
  ext := []

/-- The constructed registry after two loads that both use the tag "dome". -/
def domeTwice : SceneManager :=
  (SceneManager.construct.run
    [SceneManager.TextureCall.CreateGLTexture "a.jpg" "dome" (some ⟨4, 4, 3⟩) 7,
      SceneManager.TextureCall.CreateGLTexture "b.jpg" "dome" (some ⟨4, 4, 3⟩) 8]).2

/-- State invariant of the miss diagnostic for the tag `t`, where `m` tells whether a
lookup of `t` has missed so far: the line for `t` has been written once if so and never
otherwise, and as long as no live slot carries `t`, the tag is in `missingTextures` exactly
when a lookup of it has missed. -/
def SceneManager.MissLogged (s : SceneManager) (t : String) (m : Bool) : Prop :=
  s.cout.count (Diag.slotNotFound t) = (if m then 1 else 0) ∧
  ((∀ i : Fin 16, i.val < s.m_loadedTextures → (s.m_textureIDs i).tag ≠ t) →
    (t ∈ s.missingTextures ↔ m = true))

/-! ## ViewManager.h / ViewManager.cpp -/

/-- The functions of `<cmath>` and the constant π behind `glm::radians`, over the number
type `α` that stands for `float`. -/
structure CMath (α : Type) where
  cos : α → α
  sin : α → α
  sqrt : α → α
  pi : α

namespace glm

/-- `glm::vec3`. -/
structure vec3 (α : Type) where
  x : α
  y : α
  z : α
deriving DecidableEq, Repr

variable {α : Type} [Field α]

instance : Add (vec3 α) := ⟨fun a b => ⟨a.x + b.x, a.y + b.y, a.z + b.z⟩⟩

instance : Sub (vec3 α) := ⟨fun a b => ⟨a.x - b.x, a.y - b.y, a.z - b.z⟩⟩

/-- Vector times scalar, `v * s`. -/
instance : HMul (vec3 α) α (vec3 α) := ⟨fun a s => ⟨a.x * s, a.y * s, a.z * s⟩⟩

/-- `glm::dot`. -/
def dot (a b : vec3 α) : α := a.x * b.x + a.y * b.y + a.z * b.z

/-- `glm::cross`. -/
def cross (a b : vec3 α) : vec3 α :=
  ⟨a.y * b.z - b.y * a.z, a.z * b.x - b.z * a.x, a.x * b.y - b.x * a.y⟩

/-- `glm::length(v)`, which is `sqrt(dot(v, v))`. -/
def length (M : CMath α) (v : vec3 α) : α := M.sqrt (dot v v)

/-- `glm::normalize(v)`, which is `v * inversesqrt(dot(v, v))`. -/
def normalize (M : CMath α) (v : vec3 α) : vec3 α := v * (1 / M.sqrt (dot v v))

/-- `glm::radians(degrees)`, which is `degrees * (π / 180)`. -/
def radians (M : CMath α) (degrees : α) : α := degrees * (M.pi / 180)

end glm

/-- `enum ProjectionMode { PERSPECTIVE, ORTHOGRAPHIC }`. -/
inductive ProjectionMode where
  | PERSPECTIVE
  | ORTHOGRAPHIC
deriving DecidableEq, Repr

/-- The camera members of a `ViewManager`. -/
structure ViewManager (α : Type) where
  Position : glm.vec3 α
  Front : glm.vec3 α
  Up : glm.vec3 α
  Right : glm.vec3 α
  WorldUp : glm.vec3 α
  Target : glm.vec3 α
  Yaw : α
  Pitch : α
  MovementSpeed : α
  MouseSensitivity : α
  DistanceToTarget : α
  currentProjectionMode : ProjectionMode
  deltaTime : α
  lastFrame : α

namespace ViewManager

variable {α : Type} [LinearOrderedField α]

/-- `ViewManager::updateCameraVectors` (lines 229-237). -/
def updateCameraVectors (M : CMath α) (v : ViewManager α) : ViewManager α :=
  let Position : glm.vec3 α :=
    { x := v.Target.x + v.DistanceToTarget * M.cos (glm.radians M v.Yaw)
            * M.cos (glm.radians M v.Pitch)
      y := v.Target.y + v.DistanceToTarget * M.sin (glm.radians M v.Pitch)
      z := v.Target.z + v.DistanceToTarget * M.sin (glm.radians M v.Yaw)
            * M.cos (glm.radians M v.Pitch) }
  let Front := glm.normalize M (v.Target - Position)
  let Right := glm.normalize M (glm.cross Front v.WorldUp)
  let Up := glm.normalize M (glm.cross Right Front)
  { v with Position := Position, Front := Front, Right := Right, Up := Up }

/-- The constructor `ViewManager::ViewManager` (lines 38-46): the member initialisers, then
`updateCameraVectors()`. `Right` has no initialiser; it is first read after
`updateCameraVectors` has assigned it, so the value it starts with does not matter. -/
def construct (M : CMath α) : ViewManager α :=
  updateCameraVectors M
    { Position := ⟨0, 5, 12⟩
      Front := ⟨0, -0.5, -2⟩
      Up := ⟨0, 1, 0⟩
      Right := ⟨0, 0, 0⟩
      WorldUp := ⟨0, 1, 0⟩
      Target := ⟨0, 0, 0⟩
      Yaw := -90
      Pitch := 0
      MovementSpeed := 2.5
      MouseSensitivity := 0.1
      DistanceToTarget := 10
      currentProjectionMode := ProjectionMode.PERSPECTIVE
      deltaTime := 0
      lastFrame := 0 }

/-- `ViewManager::ProcessKeyboard` (lines 186-202). -/
def ProcessKeyboard (M : CMath α) (v : ViewManager α) (direction : Int) (deltaTime : α) :
    ViewManager α :=
  let velocity := v.MovementSpeed * deltaTime
  let v := if direction = 0 then { v with Target := v.Target + v.Front * velocity } else v
  let v := if direction = 1 then { v with Target := v.Target - v.Front * velocity } else v
  let v := if direction = 2 then { v with Target := v.Target - v.Right * velocity } else v
  let v := if direction = 3 then { v with Target := v.Target + v.Right * velocity } else v
  let v := if direction = 4 then { v with Target := v.Target + v.Up * velocity } else v
  let v := if direction = 5 then { v with Target := v.Target - v.Up * velocity } else v
  updateCameraVectors M v

/-- `ViewManager::ProcessMouseMovement` (lines 245-260). -/
def ProcessMouseMovement (M : CMath α) (v : ViewManager α) (xOffset yOffset : α)
    (constrainPitch : Bool) : ViewManager α :=
  let xOffset := xOffset * v.MouseSensitivity
  let yOffset := yOffset * v.MouseSensitivity
  let v := { v with Yaw := v.Yaw + xOffset }
  let v := { v with Pitch := v.Pitch + yOffset }
  let v :=
    if constrainPitch then
      let v := if v.Pitch > 89 then { v with Pitch := 89 } else v
      let v := if v.Pitch < -89 then { v with Pitch := -89 } else v
      v
    else v
  updateCameraVectors M v

/-- `ViewManager::ProcessMouseScroll` (lines 267-273). -/
def ProcessMouseScroll (v : ViewManager α) (yOffset : α) : ViewManager α :=
  let v := { v with MovementSpeed := v.MovementSpeed + yOffset * 0.1 }
  let v := if v.MovementSpeed < 1 then { v with MovementSpeed := 1 } else v
  let v := if v.MovementSpeed > 10 then { v with MovementSpeed := 10 } else v
  v

/-- A call that moves the camera: `pan`, `rotate` with `constrainPitch = true` (the default
argument, which is what `Mouse_Position_Callback` uses), and `zoom`. -/
inductive CameraCall (α : Type) where
  | ProcessKeyboard (direction : Int) (deltaTime : α)
  | ProcessMouseMovement (xOffset yOffset : α)
  | ProcessMouseScroll (yOffset : α)

/-- Performs one camera call. -/
def call (M : CMath α) (v : ViewManager α) : CameraCall α → ViewManager α
  | .ProcessKeyboard direction deltaTime => v.ProcessKeyboard M direction deltaTime
  | .ProcessMouseMovement xOffset yOffset => v.ProcessMouseMovement M xOffset yOffset true
  | .ProcessMouseScroll yOffset => v.ProcessMouseScroll yOffset

/-- Performs the camera calls in order. -/
def run (M : CMath α) (v : ViewManager α) : List (CameraCall α) → ViewManager α
  | [] => v
  | c :: cs => run M (v.call M c) cs

/-- The camera states after each call of a sequence, in order. -/
def trace (M : CMath α) (v : ViewManager α) : List (CameraCall α) → List (ViewManager α)
  | [] => []
  | c :: cs => v.call M c :: trace M (v.call M c) cs

end ViewManager

/-- The `<cmath>` functions are the real `cos`, `sin` and square root, and `pi` is π. -/
def CMath.IsReal (M : CMath ℝ) : Prop :=
  M.cos = Real.cos ∧ M.sin = Real.sin ∧ M.sqrt = Real.sqrt ∧ M.pi = Real.pi

/-! ## Materials, the mouse callback and the scene -/

/-- `struct OBJECT_MATERIAL` of `SceneManager.h`, over the number type `α`. -/
structure OBJECT_MATERIAL (α : Type) where
  tag : String
  ambientColor : glm.vec3 α
  diffuseColor : glm.vec3 α
  specularColor : glm.vec3 α
  ambientStrength : α
  shininess : α
deriving DecidableEq, Repr

/-- The `while` loop of `FindMaterial` (lines 274-286). The list is the part of
`m_objectMaterials` from `index` on: an entry whose tag matches sets `bFound`, which ends the
loop, after its five values have been copied into `material`; any other entry advances
`index`. The result is `material` when the loop ends. -/
def SceneManager.FindMaterial.loop {α : Type} (tag : String) :
    List (OBJECT_MATERIAL α) → OBJECT_MATERIAL α → OBJECT_MATERIAL α
  | [], material => material
  | entry :: rest, material =>
    if entry.tag = tag then
      { material with
        ambientColor := entry.ambientColor
        ambientStrength := entry.ambientStrength
        diffuseColor := entry.diffuseColor
        specularColor := entry.specularColor
        shininess := entry.shininess }
    else SceneManager.FindMaterial.loop tag rest material

/-- `SceneManager::FindMaterial` (lines 267-289): the value returned and the referenced
`material` after the call. -/
def SceneManager.FindMaterial {α : Type} (m_objectMaterials : List (OBJECT_MATERIAL α))
    (tag : String) (material : OBJECT_MATERIAL α) : Bool × OBJECT_MATERIAL α :=
  if m_objectMaterials.length = 0 then (false, material)
  else (true, SceneManager.FindMaterial.loop tag m_objectMaterials material)

/-- The file-scope variables of `ViewManager.cpp` (lines 24-30). -/
structure Globals (α : Type) where
  gLastX : α
  gLastY : α
  gFirstMouse : Bool
  gDeltaTime : α
  gLastFrame : α

/-- The file-scope variables as initialised: `WINDOW_WIDTH / 2.0f`, `WINDOW_HEIGHT / 2.0f`,
`true`, `0.0f`, `0.0f`. -/
def Globals.initial {α : Type} [LinearOrderedField α] : Globals α where
  gLastX := 1000 / 2
  gLastY := 800 / 2
  gFirstMouse := true
  gDeltaTime := 0
  gLastFrame := 0

/-- `ViewManager::Mouse_Position_Callback` (lines 88-105). `viewManager` is the window's user
pointer (`none` when it is null); the result is the file-scope variables and the camera after
the call. -/
def ViewManager.Mouse_Position_Callback {α : Type} [LinearOrderedField α] (M : CMath α)
    (g : Globals α) (viewManager : Option (ViewManager α)) (xMousePos yMousePos : α) :
    Globals α × Option (ViewManager α) :=
  match viewManager with
  | none => (g, none)
  | some v =>
    let g :=
      if g.gFirstMouse then
        { g with gLastX := xMousePos, gLastY := yMousePos, gFirstMouse := false }
      else g
    let xOffset := xMousePos - g.gLastX
    let yOffset := g.gLastY - yMousePos
    let g := { g with gLastX := xMousePos, gLastY := yMousePos }
    (g, some (v.ProcessMouseMovement M xOffset yOffset true))

/-- The matrix `translation * rotationX * rotationY * rotationZ * scale` that
`SetTransformations` builds (line 316), kept as the five values it is built from. -/
structure ModelMatrix where
  scaleXYZ : glm.vec3 ℚ
  XrotationDegrees : ℚ
  YrotationDegrees : ℚ
  ZrotationDegrees : ℚ
  positionXYZ : glm.vec3 ℚ
deriving DecidableEq, Repr

/-- Modelled from the spec: a value held by the shading collaborator (`ShaderManager.h` is
not among the sources), "named uniform-like values of kinds float, vec2, vec3, vec4, mat4,
int, bool, sampler index". The `float` literals of the scene are exact rationals. -/
inductive UniformValue where
  | int (value : Int)
  | float (value : ℚ)
  | vec2 (u v : ℚ)
  | vec3 (value : glm.vec3 ℚ)
  | vec4 (r g b a : ℚ)
  | mat4 (value : ModelMatrix)
  | sampler2D (slot : Int)
deriving DecidableEq, Repr

/-- Modelled from the spec: the shading collaborator, a map from uniform names to the value
last set under that name (`ShaderManager.h` is not among the sources). -/
structure ShaderManager where
  uniforms : List (String × UniformValue)
deriving DecidableEq, Repr

namespace ShaderManager

/-- Modelled from the spec: storing a value under a name replaces what the name held. -/
def set (sh : ShaderManager) (name : String) (value : UniformValue) : ShaderManager :=
  { uniforms := (name, value) :: sh.uniforms.filter (fun e => e.1 ≠ name) }

/-- Modelled from the spec: the value a name holds, if one was set. -/
def get (sh : ShaderManager) (name : String) : Option UniformValue :=
  (sh.uniforms.find? (fun e => e.1 = name)).map (fun e => e.2)

/-- Modelled from the spec: `setIntValue(name, value)`; a `bool` argument arrives as 0 or 1. -/
def setIntValue (sh : ShaderManager) (name : String) (value : Int) : ShaderManager :=
  sh.set name (UniformValue.int value)

/-- Modelled from the spec: `setFloatValue(name, value)`. -/
def setFloatValue (sh : ShaderManager) (name : String) (value : ℚ) : ShaderManager :=
  sh.set name (UniformValue.float value)

/-- Modelled from the spec: `setVec2Value(name, value)`. -/
def setVec2Value (sh : ShaderManager) (name : String) (u v : ℚ) : ShaderManager :=
  sh.set name (UniformValue.vec2 u v)

/-- Modelled from the spec: `setVec3Value(name, value)`. -/
def setVec3Value (sh : ShaderManager) (name : String) (value : glm.vec3 ℚ) : ShaderManager :=
  sh.set name (UniformValue.vec3 value)

/-- Modelled from the spec: `setVec4Value(name, value)`. -/
def setVec4Value (sh : ShaderManager) (name : String) (r g b a : ℚ) : ShaderManager :=
  sh.set name (UniformValue.vec4 r g b a)

/-- Modelled from the spec: `setMat4Value(name, value)`. -/
def setMat4Value (sh : ShaderManager) (name : String) (value : ModelMatrix) : ShaderManager :=
  sh.set name (UniformValue.mat4 value)

/-- Modelled from the spec: `setSampler2DValue(name, slot)`. -/
def setSampler2DValue (sh : ShaderManager) (name : String) (slot : Int) : ShaderManager :=
  sh.set name (UniformValue.sampler2D slot)

end ShaderManager

/-- Modelled from the spec: the primitive kinds of the mesh-drawing collaborator
(`ShapeMeshes.h` is not among the sources), "one load and one draw operation per primitive
kind in plane, cone, cylinder, sphere, half-sphere, tapered-cylinder, box, torus". -/
inductive MeshKind where
  | plane
  | cone
  | cylinder
  | sphere
  | halfSphere
  | taperedCylinder
  | box
  | torus
deriving DecidableEq, Repr

/-- Modelled from the spec: a call made on the mesh-drawing collaborator. A draw call is kept
with the shading collaborator as it is when the call is made, which is what the mesh is
rendered with. -/
inductive MeshCall where
  /-- `m_basicMeshes->Load<kind>Mesh()`. -/
  | Load (kind : MeshKind)
  /-- `m_basicMeshes->Draw<kind>Mesh()`. -/
  | Draw (kind : MeshKind) (shader : Option ShaderManager)
deriving DecidableEq, Repr

/-- `struct Light` of `SceneManager.h`. -/
structure Light where
  position : glm.vec3 ℚ
  color : glm.vec3 ℚ
  intensity : ℚ
deriving DecidableEq, Repr

/-- The whole `SceneManager` object: the texture members and process state (`textures`, the
structure `SceneManager` above), the shader manager `m_pShaderManager` points to (`none` for
a null pointer) with the uniforms it holds, the calls made so far on `m_basicMeshes`, and the
two lights. -/
structure Scene where
  textures : SceneManager
  m_pShaderManager : Option ShaderManager
  m_basicMeshes : List MeshCall
  m_primaryLight : Light
  m_ambientLight : Light

/-- How a draw instruction of `RenderScene` shades its mesh: `SetShaderTexture(tag)` or
`SetShaderColor(r, g, b, a)`. -/
inductive Shading where
  | texture (textureTag : String)
  | color (redColorValue greenColorValue blueColorValue alphaValue : ℚ)
deriving DecidableEq, Repr

/-- One block of `RenderScene`: the arguments of `SetTransformations`, the shading call and
the mesh drawn. -/
structure DrawInstruction where
  scaleXYZ : glm.vec3 ℚ
  XrotationDegrees : ℚ
  YrotationDegrees : ℚ
  ZrotationDegrees : ℚ
  positionXYZ : glm.vec3 ℚ
  shading : Shading
  mesh : MeshKind
deriving DecidableEq, Repr

namespace Scene

/-- The constructor `SceneManager::SceneManager` (lines 22-38) at the start of the process.
The position of the ambient light has no initialiser and is never read. -/
def construct (pShaderManager : Option ShaderManager) : Scene where
  textures := SceneManager.construct
  m_pShaderManager := pShaderManager
  m_basicMeshes := []
  m_primaryLight := { position := ⟨0, 2, 0⟩, color := ⟨1, 0.55, 0⟩, intensity := 1.5 }
  m_ambientLight := { position := ⟨0, 0, 0⟩, color := ⟨1, 1, 1⟩, intensity := 0.5 }

/-- `SceneManager::SetLighting` (lines 61-70). -/
def SetLighting (sc : Scene) : Scene :=
  match sc.m_pShaderManager with
  | some sh =>
    let sh := sh.setVec3Value "primaryLight.position" sc.m_primaryLight.position
    let sh := sh.setVec3Value "primaryLight.color" sc.m_primaryLight.color
    let sh := sh.setFloatValue "primaryLight.intensity" sc.m_primaryLight.intensity
    let sh := sh.setVec3Value "ambientLight.color" sc.m_ambientLight.color
    let sh := sh.setFloatValue "ambientLight.intensity" sc.m_ambientLight.intensity
    { sc with m_pShaderManager := some sh }
  | none => sc

/-- `SceneManager::LoadSceneTextures` (lines 102-111). `stbi_load` tells what decoding each
file gives and `glGenTextures` the texture name handed out while that file is loaded. -/
def LoadSceneTextures (sc : Scene) (stbi_load : String → Option Image)
    (glGenTextures : String → Nat) : Scene :=
  let load (t : SceneManager) (filename tag : String) : SceneManager :=
    (t.CreateGLTexture filename tag (stbi_load filename) (glGenTextures filename)).2
  let t := load sc.textures
    "C:\\CS330Content\\Projects\\Utilities\\textures\\circular-brushed-gold-texture.jpg" "dome"
  let t := load t "C:\\CS330Content\\Projects\\Utilities\\textures\\stainless.jpg" "hull"
  let t := load t "C:\\CS330Content\\Utilities\\textures\\stainless_end.jpg" "shuttlebay"
  let t := load t "C:\\CS330Content\\Utilities\\textures\\abstract.jpg" "planet"
  { sc with textures := t.BindGLTextures }

/-- `m_basicMeshes->Load<kind>Mesh()`. -/
def LoadMesh (sc : Scene) (kind : MeshKind) : Scene :=
  { sc with m_basicMeshes := sc.m_basicMeshes ++ [MeshCall.Load kind] }

/-- `m_basicMeshes->Draw<kind>Mesh()`. -/
def DrawMesh (sc : Scene) (kind : MeshKind) : Scene :=
  { sc with m_basicMeshes := sc.m_basicMeshes ++ [MeshCall.Draw kind sc.m_pShaderManager] }

/-- `SceneManager::PrepareScene` (lines 79-93). -/
def PrepareScene (sc : Scene) (stbi_load : String → Option Image)
    (glGenTextures : String → Nat) : Scene :=
  let sc := sc.LoadSceneTextures stbi_load glGenTextures
  let sc := sc.LoadMesh MeshKind.plane
  let sc := sc.LoadMesh MeshKind.cone
  let sc := sc.LoadMesh MeshKind.cylinder
  let sc := sc.LoadMesh MeshKind.sphere
  let sc := sc.LoadMesh MeshKind.taperedCylinder
  let sc := sc.LoadMesh MeshKind.box
  let sc := sc.LoadMesh MeshKind.torus
  sc

/-- `SceneManager::SetTransformations` (lines 297-321). -/
def SetTransformations (sc : Scene) (scaleXYZ : glm.vec3 ℚ)
    (XrotationDegrees YrotationDegrees ZrotationDegrees : ℚ) (positionXYZ : glm.vec3 ℚ) :
    Scene :=
  let modelView : ModelMatrix :=
    { scaleXYZ := scaleXYZ, XrotationDegrees := XrotationDegrees,
      YrotationDegrees := YrotationDegrees, ZrotationDegrees := ZrotationDegrees,
      positionXYZ := positionXYZ }
  match sc.m_pShaderManager with
  | some sh => { sc with m_pShaderManager := some (sh.setMat4Value "model" modelView) }
  | none => sc

/-- `SceneManager::SetShaderColor` (lines 329-345). -/
def SetShaderColor (sc : Scene)
    (redColorValue greenColorValue blueColorValue alphaValue : ℚ) : Scene :=
  match sc.m_pShaderManager with
  | some sh =>
    let sh := sh.setIntValue "bUseTexture" 0
    let sh := sh.setVec4Value "objectColor" redColorValue greenColorValue blueColorValue
      alphaValue
    { sc with m_pShaderManager := some sh }
  | none => sc

/-- `SceneManager::SetShaderTexture` (lines 353-361). -/
def SetShaderTexture (sc : Scene) (textureTag : String) : Scene :=
  match sc.m_pShaderManager with
  | some sh =>
    let textureSlot := (sc.textures.FindTextureSlot textureTag).1
    let sc := { sc with textures := (sc.textures.FindTextureSlot textureTag).2 }
    if textureSlot ≠ -1 then
      let sh := sh.setIntValue "bUseTexture" 1
      let sh := sh.setSampler2DValue "objectTexture" textureSlot
      { sc with m_pShaderManager := some sh }
    else sc
  | none => sc

/-- The blocks of `RenderScene` after `SetLighting()` (lines 413-523), in order. The locals
`XrotationDegrees`, `YrotationDegrees` and `ZrotationDegrees` are 0 throughout. -/
def RenderScene.instructions : List DrawInstruction :=
  [ -- plane
    ⟨⟨20, 1, 10⟩, 0, 0, 0, ⟨0, 0, 0⟩, Shading.texture "planet", MeshKind.plane⟩,
    -- upper saucer module
    ⟨⟨4, 0.2, 4⟩, 0, 0, 0, ⟨-3, 4, 0⟩, Shading.texture "hull", MeshKind.cylinder⟩,
    -- lower saucer module
    ⟨⟨4, 0.2, 4⟩, 180, 0, 0, ⟨-3, 4, 0⟩, Shading.texture "hull", MeshKind.taperedCylinder⟩,
    -- bridge and phaser array
    ⟨⟨0.5, 1, 1⟩, 90, 90, 0, ⟨-3, 4.1, 0⟩, Shading.texture "dome", MeshKind.sphere⟩,
    -- neck
    ⟨⟨1.25, 1.5, 0.5⟩, 0, 0, 15, ⟨0, 3.25, 0⟩, Shading.texture "hull", MeshKind.box⟩,
    -- deflector cone at front of main hull
    ⟨⟨0.75, 0.5, 0.75⟩, 90, 0, 90, ⟨-0.59, 2, 0⟩, Shading.texture "hull",
      MeshKind.taperedCylinder⟩,
    -- main hull
    ⟨⟨0.74, 4.5, 0.74⟩, 90, 0, 90, ⟨3.9, 2, 0⟩, Shading.texture "hull", MeshKind.cylinder⟩,
    -- shuttlebay
    ⟨⟨0.74, 0.74, 0.74⟩, 0, 0, 0, ⟨3.9, 2, 0⟩, Shading.texture "shuttlebay",
      MeshKind.halfSphere⟩,
    -- shuttlebay floor
    ⟨⟨0.01, 0.74, 0.74⟩, 0, 0, 90, ⟨3.9, 2, 0⟩, Shading.texture "hall", MeshKind.sphere⟩,
    -- deflector dish
    ⟨⟨0.35, 0.35, 0.35⟩, 0, 0, -90, ⟨-1.1, 2, 0⟩, Shading.color 0.35 0.65 0.80 1,
      MeshKind.cone⟩,
    -- left pylon
    ⟨⟨0.75, 2.5, 0.10⟩, 40, 0, -20, ⟨3.5, 3.4, 1⟩, Shading.texture "hull", MeshKind.box⟩,
    -- left nacelle
    ⟨⟨0.25, 4.5, 0.25⟩, 90, 0, 90, ⟨6.5, 4.25, 1.75⟩, Shading.texture "hull",
      MeshKind.cylinder⟩,
    -- left buzzard ram scoop
    ⟨⟨0.25, 0.25, 0.25⟩, 0, 0, 0, ⟨2, 4.25, 1.75⟩, Shading.color 1 0 0 1, MeshKind.sphere⟩,
    -- right pylon
    ⟨⟨0.75, 2.5, 0.10⟩, -40, 0, -20, ⟨3.5, 3.4, -1⟩, Shading.texture "hull", MeshKind.box⟩,
    -- right nacelle
    ⟨⟨0.25, 4.5, 0.25⟩, 90, 0, 90, ⟨6.5, 4.25, -1.75⟩, Shading.texture "hull",
      MeshKind.cylinder⟩,
    -- right buzzard ram scoop
    ⟨⟨0.25, 0.25, 0.25⟩, 0, 0, 0, ⟨2, 4.25, -1.75⟩, Shading.color 1 0 0 1, MeshKind.sphere⟩ ]

/-- One block of `RenderScene`: `SetTransformations`, then `SetShaderTexture` or
`SetShaderColor`, then the draw call. -/
def RenderScene.block (sc : Scene) (d : DrawInstruction) : Scene :=
  let sc := sc.SetTransformations d.scaleXYZ d.XrotationDegrees d.YrotationDegrees
    d.ZrotationDegrees d.positionXYZ
  let sc :=
    match d.shading with
    | Shading.texture textureTag => sc.SetShaderTexture textureTag
    | Shading.color r g b a => sc.SetShaderColor r g b a
  sc.DrawMesh d.mesh

/-- `SceneManager::RenderScene` (lines 403-524). -/
def RenderScene (sc : Scene) : Scene :=
  RenderScene.instructions.foldl RenderScene.block sc.SetLighting

/-- The texture tags `RenderScene` passes to `SetShaderTexture`, in order. -/
def RenderScene.textureTags : List String :=
  RenderScene.instructions.filterMap fun d =>
    match d.shading with
    | Shading.texture textureTag => some textureTag
    | Shading.color _ _ _ _ => none

/-- The tags `LoadSceneTextures` passes to `CreateGLTexture`, in order. -/
def LoadSceneTextures.tags : List String := ["dome", "hull", "shuttlebay", "planet"]

/-- The mesh kinds of the `Load` calls among some calls on the mesh collaborator. -/
def loadedKinds (calls : List MeshCall) : List MeshKind :=
  calls.filterMap fun c =>
    match c with
    | MeshCall.Load kind => some kind
    | MeshCall.Draw _ _ => none

/-- The mesh kinds of the `Draw` calls among some calls on the mesh collaborator. -/
def drawnKinds (calls : List MeshCall) : List MeshKind :=
  calls.filterMap fun c =>
    match c with
    | MeshCall.Load _ => none
    | MeshCall.Draw kind _ => some kind

end Scene

/-- The value of the uniform `bUseTexture` a call on the mesh collaborator is made with:
`none` for a load call, and for a draw call without a shader manager or before the uniform
was ever set. -/
def MeshCall.bUseTexture : MeshCall → Option UniformValue
  | .Load _ => none
  | .Draw _ shader => shader.bind fun sh => sh.get "bUseTexture"

/-- Decoder under which every file is a 64 x 64 RGB image. -/
def demoLoad : String → Option Image := fun _ => some ⟨64, 64, 3⟩

/-- Texture names by length of the file name, distinct for the four scene textures. -/
def demoNames : String → Nat := fun filename => filename.length

/-- The scene after the constructor and `PrepareScene`, all four textures decoding. -/
def demoScene : Scene :=
  (Scene.construct (some ⟨[]⟩)).PrepareScene demoLoad demoNames

/-! ## The definitions on concrete inputs -/

example : demoRegistry.m_loadedTextures = 2 := by decide

example : demoRegistry.m_textureIDs 1 = ⟨9, "hull"⟩ := by decide

example : (demoRegistry.FindTextureSlot "hull").1 = 1 := by decide

example : (demoRegistry.FindTextureSlot "hall").1 = -1 := by decide

example : (fullRegistry.FindTextureSlot "t15").1 = 15 := by decide

example : (fullRegistry.CreateGLTexture "x.png" "x" (some ⟨1, 1, 4⟩) 99).2.cerr
    = [Diag.tooManyTextures] := by decide

example :
    (SceneManager.construct.run
      [SceneManager.TextureCall.FindTextureSlot "hall", SceneManager.TextureCall.CreateGLTexture "f" "hall" (some ⟨1, 1, 3⟩) 5,
        SceneManager.TextureCall.FindTextureSlot "hall"]).1.map (fun e => e.2)
      = [SceneManager.TextureReturn.int (-1), SceneManager.TextureReturn.bool true, SceneManager.TextureReturn.int 0] := by
  decide

example :
    (SceneManager.construct.run
      [SceneManager.TextureCall.FindTextureSlot "hall", SceneManager.TextureCall.FindTextureSlot "hall",
        SceneManager.TextureCall.CreateGLTexture "f" "hall" (some ⟨1, 1, 2⟩) 5,
        SceneManager.TextureCall.FindTextureSlot "hall"]).2.cout.count (Diag.slotNotFound "hall") = 1 := by
  decide

example : (domeTwice.FindTextureSlot "dome").1 = 0 := by decide

example :
    SceneManager.FindMaterial
      [⟨"gold", ⟨1, 2, 3⟩, ⟨4, 5, 6⟩, ⟨7, 8, 9⟩, 10, 11⟩,
        ⟨"gold", ⟨0, 0, 0⟩, ⟨0, 0, 0⟩, ⟨0, 0, 0⟩, 0, 0⟩]
      "gold" (⟨"mine", ⟨0, 0, 0⟩, ⟨0, 0, 0⟩, ⟨0, 0, 0⟩, 0, 0⟩ : OBJECT_MATERIAL ℤ)
      = (true, ⟨"mine", ⟨1, 2, 3⟩, ⟨4, 5, 6⟩, ⟨7, 8, 9⟩, 10, 11⟩) := by
  decide

example :
    SceneManager.FindMaterial [⟨"gold", ⟨1, 2, 3⟩, ⟨4, 5, 6⟩, ⟨7, 8, 9⟩, 10, 11⟩]
      "glass" (⟨"mine", ⟨0, 0, 0⟩, ⟨0, 0, 0⟩, ⟨0, 0, 0⟩, 0, 0⟩ : OBJECT_MATERIAL ℤ)
      = (true, ⟨"mine", ⟨0, 0, 0⟩, ⟨0, 0, 0⟩, ⟨0, 0, 0⟩, 0, 0⟩) := by
  decide

example : demoScene.textures.m_loadedTextures = 4 := by decide

example : Scene.RenderScene.textureTags =
    ["planet", "hull", "hull", "dome", "hull", "hull", "hull", "shuttlebay", "hall", "hull",
      "hull", "hull", "hull"] := by
  decide

example : Scene.drawnKinds demoScene.RenderScene.m_basicMeshes =
    [MeshKind.plane, MeshKind.cylinder, MeshKind.taperedCylinder, MeshKind.sphere, MeshKind.box,
      MeshKind.taperedCylinder, MeshKind.cylinder, MeshKind.halfSphere, MeshKind.sphere,
      MeshKind.cone, MeshKind.box, MeshKind.cylinder, MeshKind.sphere, MeshKind.box,
      MeshKind.cylinder, MeshKind.sphere] := by
  decide

/-! ## Properties of the texture registry -/

namespace SceneManager

theorem BindGLTextures_loaded (s : SceneManager) :
    s.BindGLTextures.m_loadedTextures = s.m_loadedTextures := rfl

theorem BindGLTextures_ids (s : SceneManager) :
    s.BindGLTextures.m_textureIDs = s.m_textureIDs := rfl

/-- A load that reports failure leaves the slot count and the slot array alone. -/
theorem CreateGLTexture_false_slots (s : SceneManager) (filename tag : String)
    (image : Option Image) (textureID : Nat)
    (h : (s.CreateGLTexture filename tag image textureID).1 = false) :
    (s.CreateGLTexture filename tag image textureID).2.m_loadedTextures = s.m_loadedTextures ∧
    (s.CreateGLTexture filename tag image textureID).2.m_textureIDs = s.m_textureIDs := by
  by_cases hfull : s.m_loadedTextures ≥ 16
  · simp [CreateGLTexture, hfull]
  · cases image with
    | none => simp [CreateGLTexture, hfull]
    | some img =>
      by_cases h3 : img.colorChannels = 3
      · simp [CreateGLTexture, hfull, h3] at h
      · by_cases h4 : img.colorChannels = 4
        · simp [CreateGLTexture, hfull, h4] at h
        · simp [CreateGLTexture, hfull, h3, h4]

/-- C1. When all sixteen slots are in use, `CreateGLTexture` returns false for every file
name, tag, decoding result and texture name, and the slot count and the sixteen
`(tag, ID)` entries are what they were. -/
theorem CreateGLTexture_full_registry (s : SceneManager) (h : s.m_loadedTextures = 16)
    (filename tag : String) (image : Option Image) (textureID : Nat) :
    (s.CreateGLTexture filename tag image textureID).1 = false ∧
    (s.CreateGLTexture filename tag image textureID).2.m_loadedTextures = 16 ∧
    (s.CreateGLTexture filename tag image textureID).2.m_textureIDs = s.m_textureIDs := by
  have hge : s.m_loadedTextures ≥ 16 := by omega
  unfold CreateGLTexture
  rw [dif_pos hge]
  exact ⟨rfl, h, rfl⟩

theorem CreateGLTexture_full_registry_witness :
    fullRegistry.m_loadedTextures = 16 ∧
    (fullRegistry.CreateGLTexture "c.png" "planet" (some ⟨8, 8, 3⟩) 40).1 = false ∧
    (fullRegistry.CreateGLTexture "c.png" "planet" (some ⟨8, 8, 3⟩) 40).2.m_loadedTextures
      = 16 ∧
    (fullRegistry.CreateGLTexture "c.png" "planet" (some ⟨8, 8, 3⟩) 40).2.m_textureIDs
      = fullRegistry.m_textureIDs :=
  ⟨rfl, CreateGLTexture_full_registry fullRegistry rfl "c.png" "planet" (some ⟨8, 8, 3⟩) 40⟩

/-- A decoded image with a channel count other than 3 and 4 is refused and not registered. -/
theorem CreateGLTexture_rejects_channels (s : SceneManager) (filename tag : String)
    (img : Image) (textureID : Nat)
    (h3 : img.colorChannels ≠ 3) (h4 : img.colorChannels ≠ 4) :
    (s.CreateGLTexture filename tag (some img) textureID).1 = false ∧
    (s.CreateGLTexture filename tag (some img) textureID).2.m_loadedTextures
      = s.m_loadedTextures ∧
    (s.CreateGLTexture filename tag (some img) textureID).2.m_textureIDs
      = s.m_textureIDs := by
  have hf : (s.CreateGLTexture filename tag (some img) textureID).1 = false := by
    unfold CreateGLTexture
    split
    · rfl
    · simp only [h3, h4, if_false]
  exact ⟨hf, CreateGLTexture_false_slots s filename tag (some img) textureID hf⟩

/-- C2. For every registry state and every image that decodes with a channel count other
than 3 and 4, `CreateGLTexture` returns false and registers nothing: the slot count and
every `(tag, ID)` entry are unchanged. -/
theorem CreateGLTexture_unsupported_channels (s : SceneManager) (filename tag : String)
    (img : Image) (textureID : Nat)
    (h3 : img.colorChannels ≠ 3) (h4 : img.colorChannels ≠ 4) :
    (s.CreateGLTexture filename tag (some img) textureID).1 = false ∧
    (s.CreateGLTexture filename tag (some img) textureID).2.m_loadedTextures
      = s.m_loadedTextures ∧
    (s.CreateGLTexture filename tag (some img) textureID).2.m_textureIDs
      = s.m_textureIDs :=
  CreateGLTexture_rejects_channels s filename tag img textureID h3 h4

theorem CreateGLTexture_unsupported_channels_witness :
    (demoRegistry.CreateGLTexture "grey.png" "planet" (some ⟨8, 8, 2⟩) 11).1 = false ∧
    (demoRegistry.CreateGLTexture "grey.png" "planet" (some ⟨8, 8, 2⟩) 11).2.m_loadedTextures
      = demoRegistry.m_loadedTextures ∧
    (demoRegistry.CreateGLTexture "grey.png" "planet" (some ⟨8, 8, 2⟩) 11).2.m_textureIDs
      = demoRegistry.m_textureIDs :=
  CreateGLTexture_unsupported_channels demoRegistry "grey.png" "planet" ⟨8, 8, 2⟩ 11
    (by decide) (by decide)

/-- A load below capacity of an image with 3 or 4 channels registers it in the next slot. -/
theorem CreateGLTexture_registers (s : SceneManager) (filename tag : String)
    (img : Image) (textureID : Nat) (hN : s.m_loadedTextures < 16)
    (hc : img.colorChannels = 3 ∨ img.colorChannels = 4) :
    (s.CreateGLTexture filename tag (some img) textureID).1 = true ∧
    (s.CreateGLTexture filename tag (some img) textureID).2.m_loadedTextures
      = s.m_loadedTextures + 1 ∧
    (s.CreateGLTexture filename tag (some img) textureID).2.m_textureIDs
      = Function.update s.m_textureIDs ⟨s.m_loadedTextures, hN⟩
          { ID := textureID, tag := tag } := by
  have hfull : ¬ s.m_loadedTextures ≥ 16 := by omega
  rcases hc with h3 | h4
  · simp [CreateGLTexture, hfull, h3, BindGLTextures]
  · by_cases h3 : img.colorChannels = 3
    · simp [CreateGLTexture, hfull, h3, BindGLTextures]
    · simp [CreateGLTexture, hfull, h3, h4, BindGLTextures]

/-- C3. Below capacity, loading an image that decodes with 3 or 4 channels returns true,
makes the slot count `N + 1`, puts the given tag with the generated texture name in slot
`N` and keeps slots `0..N-1`; so loading "dome", then "hull", then an image with an
unsupported channel count into the constructed registry ends with exactly two slots,
tagged "dome" and "hull" in that order. -/
theorem CreateGLTexture_appends_slot :
    (∀ (s : SceneManager) (filename tag : String) (img : Image) (textureID : Nat)
        (hN : s.m_loadedTextures < 16),
        img.colorChannels = 3 ∨ img.colorChannels = 4 →
        (s.CreateGLTexture filename tag (some img) textureID).1 = true ∧
        (s.CreateGLTexture filename tag (some img) textureID).2.m_loadedTextures
          = s.m_loadedTextures + 1 ∧
        (s.CreateGLTexture filename tag (some img) textureID).2.m_textureIDs
            ⟨s.m_loadedTextures, hN⟩ = { ID := textureID, tag := tag } ∧
        ∀ i : Fin 16, i.val < s.m_loadedTextures →
          (s.CreateGLTexture filename tag (some img) textureID).2.m_textureIDs i
            = s.m_textureIDs i) ∧
    (∀ (f1 f2 f3 tag3 : String) (img1 img2 img3 : Image) (id1 id2 id3 : Nat),
        img1.colorChannels = 3 ∨ img1.colorChannels = 4 →
        img2.colorChannels = 3 ∨ img2.colorChannels = 4 →
        img3.colorChannels ≠ 3 → img3.colorChannels ≠ 4 →
        (((construct.CreateGLTexture f1 "dome" (some img1) id1).2.CreateGLTexture
            f2 "hull" (some img2) id2).2.CreateGLTexture f3 tag3 (some img3) id3).1 = false ∧
        (((construct.CreateGLTexture f1 "dome" (some img1) id1).2.CreateGLTexture
            f2 "hull" (some img2) id2).2.CreateGLTexture f3 tag3 (some img3) id3).2.m_loadedTextures
          = 2 ∧
        (((construct.CreateGLTexture f1 "dome" (some img1) id1).2.CreateGLTexture
            f2 "hull" (some img2) id2).2.CreateGLTexture f3 tag3 (some img3) id3).2.m_textureIDs 0
          = { ID := id1, tag := "dome" } ∧
        (((construct.CreateGLTexture f1 "dome" (some img1) id1).2.CreateGLTexture
            f2 "hull" (some img2) id2).2.CreateGLTexture f3 tag3 (some img3) id3).2.m_textureIDs 1
          = { ID := id2, tag := "hull" }) := by
  constructor
  · intro s filename tag img textureID hN hc
    obtain ⟨h1, h2, h3⟩ := CreateGLTexture_registers s filename tag img textureID hN hc
    refine ⟨h1, h2, ?_, ?_⟩
    · rw [h3, Function.update_same]
    · intro i hi
      rw [h3, Function.update_noteq]
      intro hEq
      rw [hEq] at hi
      exact Nat.lt_irrefl _ hi
  · intro f1 f2 f3 tag3 img1 img2 img3 id1 id2 id3 hc1 hc2 h3 h4
    have h0 : construct.m_loadedTextures < 16 := by decide
    obtain ⟨-, a2, a3⟩ := CreateGLTexture_registers construct f1 "dome" img1 id1 h0 hc1
    have h1 : (construct.CreateGLTexture f1 "dome" (some img1) id1).2.m_loadedTextures < 16 := by
      rw [a2]; decide
    obtain ⟨-, b2, b3⟩ := CreateGLTexture_registers _ f2 "hull" img2 id2 h1 hc2
    obtain ⟨c1, c2, c3⟩ := CreateGLTexture_rejects_channels
      ((construct.CreateGLTexture f1 "dome" (some img1) id1).2.CreateGLTexture
        f2 "hull" (some img2) id2).2 f3 tag3 img3 id3 h3 h4
    have k0 : (⟨construct.m_loadedTextures, h0⟩ : Fin 16) = 0 := rfl
    have k1 : (⟨(construct.CreateGLTexture f1 "dome" (some img1) id1).2.m_loadedTextures, h1⟩ :
        Fin 16) = 1 := Fin.ext (a2.trans rfl)
    refine ⟨c1, ?_, ?_, ?_⟩
    · rw [c2, b2, a2]; rfl
    · rw [c3, b3, a3, k1, k0, Function.update_noteq (by decide), Function.update_same]
    · rw [c3, b3, a3, k1, k0, Function.update_same]

theorem CreateGLTexture_appends_slot_witness :
    (demoRegistry.CreateGLTexture "planet.jpg" "planet" (some ⟨8, 8, 3⟩) 12).1 = true ∧
    (demoRegistry.CreateGLTexture "planet.jpg" "planet" (some ⟨8, 8, 3⟩) 12).2.m_loadedTextures
      = demoRegistry.m_loadedTextures + 1 ∧
    (demoRegistry.CreateGLTexture "planet.jpg" "planet" (some ⟨8, 8, 3⟩) 12).2.m_textureIDs
        ⟨demoRegistry.m_loadedTextures, by decide⟩ = { ID := 12, tag := "planet" } ∧
    ∀ i : Fin 16, i.val < demoRegistry.m_loadedTextures →
      (demoRegistry.CreateGLTexture "planet.jpg" "planet" (some ⟨8, 8, 3⟩) 12).2.m_textureIDs i
        = demoRegistry.m_textureIDs i :=
  CreateGLTexture_appends_slot.1 demoRegistry "planet.jpg" "planet" ⟨8, 8, 3⟩ 12
    (by decide) (Or.inl rfl)

/-- Where the scan stops: at the first index from `i` on whose tag is the one sought. -/
theorem FindTextureSlot.loop_some (ids : Fin 16 → TEXTURE_ID) (tag : String) :
    ∀ (k i : Nat) (h : i + k ≤ 16) (r : Nat), FindTextureSlot.loop ids tag k i h = some r →
      ∃ hr : r < 16, i ≤ r ∧ r < i + k ∧ (ids ⟨r, hr⟩).tag = tag ∧
        ∀ j : Fin 16, i ≤ j.val → j.val < r → (ids j).tag ≠ tag := by
  intro k
  induction k with
  | zero => intro i h r hr; simp [FindTextureSlot.loop] at hr
  | succ k ih =>
    intro i h r hr
    by_cases ht : (ids ⟨i, by omega⟩).tag = tag
    · simp only [FindTextureSlot.loop, ht, if_true, Option.some.injEq] at hr
      subst hr
      exact ⟨by omega, Nat.le_refl _, by omega, ht, fun j h1 h2 => absurd h1 (by omega)⟩
    · simp only [FindTextureSlot.loop, ht, if_false] at hr
      obtain ⟨hr16, h1, h2, h3, h4⟩ := ih (i + 1) (by omega) r hr
      refine ⟨hr16, by omega, by omega, h3, ?_⟩
      intro j hj1 hj2
      by_cases hji : j.val = i
      · have : j = ⟨i, by omega⟩ := Fin.ext hji
        rw [this]; exact ht
      · exact h4 j (by omega) hj2

/-- When the scan runs to the end, no index it visited carries the tag. -/
theorem FindTextureSlot.loop_none (ids : Fin 16 → TEXTURE_ID) (tag : String) :
    ∀ (k i : Nat) (h : i + k ≤ 16), FindTextureSlot.loop ids tag k i h = none →
      ∀ j : Fin 16, i ≤ j.val → j.val < i + k → (ids j).tag ≠ tag := by
  intro k
  induction k with
  | zero => intro i h _ j h1 h2; omega
  | succ k ih =>
    intro i h hr j hj1 hj2
    by_cases ht : (ids ⟨i, by omega⟩).tag = tag
    · simp [FindTextureSlot.loop, ht] at hr
    · simp only [FindTextureSlot.loop, ht, if_false] at hr
      by_cases hji : j.val = i
      · have : j = ⟨i, by omega⟩ := Fin.ext hji
        rw [this]; exact ht
      · exact ih (i + 1) (by omega) hr j (by omega) (by omega)

/-- The two ways `FindTextureSlot` can end: a miss, returning -1 with no live slot carrying
the tag, or a hit at the first live slot that carries it. Neither touches the slots. -/
theorem FindTextureSlot_cases (s : SceneManager) (tag : String) :
    ((s.FindTextureSlot tag).1 = -1 ∧
        (∀ i : Fin 16, i.val < s.m_loadedTextures → (s.m_textureIDs i).tag ≠ tag) ∧
        (s.FindTextureSlot tag).2 = (if tag ∉ s.missingTextures then
          { s with cout := s.cout ++ [Diag.slotNotFound tag]
                   missingTextures := insert tag s.missingTextures } else s)) ∨
    (∃ i : Fin 16, (s.FindTextureSlot tag).1 = (i.val : Int) ∧ i.val < s.m_loadedTextures ∧
        (s.m_textureIDs i).tag = tag ∧
        (∀ j : Fin 16, j.val < i.val → (s.m_textureIDs j).tag ≠ tag) ∧
        (s.FindTextureSlot tag).2 = { s with missingTextures := s.missingTextures.erase tag }) := by
  cases hl : FindTextureSlot.loop s.m_textureIDs tag s.m_loadedTextures 0
      (by simpa using s.loaded_le) with
  | none =>
    left
    have hn := FindTextureSlot.loop_none _ _ _ _ _ hl
    refine ⟨?_, fun i hi => hn i (Nat.zero_le _) (by omega), ?_⟩
    · simp only [FindTextureSlot, hl]; split <;> rfl
    · simp only [FindTextureSlot, hl]; split <;> rfl
  | some r =>
    right
    obtain ⟨hr, -, h2, h3, h4⟩ := FindTextureSlot.loop_some _ _ _ _ _ _ hl
    refine ⟨⟨r, hr⟩, ?_, by simpa using h2, h3, fun j hj => h4 j (Nat.zero_le _) hj, ?_⟩
    · simp only [FindTextureSlot, hl]
    · simp only [FindTextureSlot, hl]

theorem FindTextureSlot_loaded (s : SceneManager) (tag : String) :
    (s.FindTextureSlot tag).2.m_loadedTextures = s.m_loadedTextures := by
  rcases FindTextureSlot_cases s tag with ⟨-, -, h⟩ | ⟨i, -, -, -, -, h⟩
  · rw [h]; split <;> rfl
  · rw [h]

theorem FindTextureSlot_ids (s : SceneManager) (tag : String) :
    (s.FindTextureSlot tag).2.m_textureIDs = s.m_textureIDs := by
  rcases FindTextureSlot_cases s tag with ⟨-, -, h⟩ | ⟨i, -, -, -, -, h⟩
  · rw [h]; split <;> rfl
  · rw [h]

/-- C4. `FindTextureSlot` returns either -1, and then no live slot carries the tag, or the
smallest index below the slot count whose tag is the given one; it returns -1 exactly when
no live slot carries the tag, its result is always below the slot count, and the slot count
and the slot array are left as they were. -/
theorem FindTextureSlot_first_match (s : SceneManager) (tag : String) :
    (((s.FindTextureSlot tag).1 = -1 ∧
        ∀ i : Fin 16, i.val < s.m_loadedTextures → (s.m_textureIDs i).tag ≠ tag) ∨
      (∃ i : Fin 16, (s.FindTextureSlot tag).1 = (i.val : Int) ∧ i.val < s.m_loadedTextures ∧
        (s.m_textureIDs i).tag = tag ∧
        ∀ j : Fin 16, j.val < i.val → (s.m_textureIDs j).tag ≠ tag)) ∧
    ((s.FindTextureSlot tag).1 = -1 ↔
      ∀ i : Fin 16, i.val < s.m_loadedTextures → (s.m_textureIDs i).tag ≠ tag) ∧
    (s.FindTextureSlot tag).1 < (s.m_loadedTextures : Int) ∧
    (s.FindTextureSlot tag).2.m_loadedTextures = s.m_loadedTextures ∧
    (s.FindTextureSlot tag).2.m_textureIDs = s.m_textureIDs := by
  refine ⟨?_, ?_, ?_, FindTextureSlot_loaded s tag, FindTextureSlot_ids s tag⟩
  · rcases FindTextureSlot_cases s tag with ⟨h1, h2, -⟩ | ⟨i, h1, h2, h3, h4, -⟩
    · exact Or.inl ⟨h1, h2⟩
    · exact Or.inr ⟨i, h1, h2, h3, h4⟩
  · rcases FindTextureSlot_cases s tag with ⟨h1, h2, -⟩ | ⟨i, h1, h2, h3, h4, -⟩
    · exact ⟨fun _ => h2, fun _ => h1⟩
    · constructor
      · intro h; rw [h1] at h; omega
      · intro h; exact absurd h3 (h i h2)
  · rcases FindTextureSlot_cases s tag with ⟨h1, h2, -⟩ | ⟨i, h1, h2, h3, h4, -⟩
    · rw [h1]; omega
    · rw [h1]; omega

/-! ### The miss diagnostic -/

/-- What `CreateGLTexture` never does: it leaves the set of reported tags alone, writes no
"could not find texture slot" line, and keeps every live slot live and unchanged. -/
theorem CreateGLTexture_effect (s : SceneManager) (filename tag : String)
    (image : Option Image) (textureID : Nat) :
    (s.CreateGLTexture filename tag image textureID).2.missingTextures = s.missingTextures ∧
    (∀ t, (s.CreateGLTexture filename tag image textureID).2.cout.count (Diag.slotNotFound t)
      = s.cout.count (Diag.slotNotFound t)) ∧
    (∀ i : Fin 16, i.val < s.m_loadedTextures →
      i.val < (s.CreateGLTexture filename tag image textureID).2.m_loadedTextures ∧
      (s.CreateGLTexture filename tag image textureID).2.m_textureIDs i = s.m_textureIDs i) := by
  by_cases hfull : s.m_loadedTextures ≥ 16
  · simp [CreateGLTexture, hfull]
  · have upd : ∀ i : Fin 16, i.val < s.m_loadedTextures →
        i.val < s.m_loadedTextures + 1 ∧
        Function.update s.m_textureIDs ⟨s.m_loadedTextures, Nat.lt_of_not_le hfull⟩
          { ID := textureID, tag := tag } i = s.m_textureIDs i := by
      intro i hi
      refine ⟨by omega, Function.update_noteq ?_ _ _⟩
      intro hEq
      rw [hEq] at hi
      exact Nat.lt_irrefl _ hi
    cases image with
    | none => simp [CreateGLTexture, hfull, List.count_append, List.count_cons]
    | some img =>
      by_cases h3 : img.colorChannels = 3
      · simpa [CreateGLTexture, hfull, h3, BindGLTextures, List.count_append,
          List.count_cons] using upd
      · by_cases h4 : img.colorChannels = 4
        · simpa [CreateGLTexture, hfull, h4, BindGLTextures, List.count_append,
            List.count_cons] using upd
        · simp [CreateGLTexture, hfull, h3, h4, List.count_append, List.count_cons]

theorem MissLogged_call (s : SceneManager) (t : String) (m : Bool) (c : TextureCall)
    (h : MissLogged s t m) :
    MissLogged (s.call c).2 t
      (m || decide ((c, (s.call c).1) =
        (TextureCall.FindTextureSlot t, TextureReturn.int (-1)))) := by
  obtain ⟨hc, hm⟩ := h
  cases c with
  | CreateGLTexture filename tag image textureID =>
    obtain ⟨e1, e2, e3⟩ := CreateGLTexture_effect s filename tag image textureID
    have hd : decide ((TextureCall.CreateGLTexture filename tag image textureID,
        (s.call (TextureCall.CreateGLTexture filename tag image textureID)).1) =
        (TextureCall.FindTextureSlot t, TextureReturn.int (-1))) = false := by simp
    rw [hd, Bool.or_false]
    refine ⟨by simp only [call]; rw [e2 t, hc], ?_⟩
    intro hl
    simp only [call]
    rw [e1]
    apply hm
    intro i hi hEq
    obtain ⟨l1, l2⟩ := e3 i hi
    exact hl i l1 (by simp only [call]; rw [l2]; exact hEq)
  | FindTextureSlot tag =>
    by_cases htag : tag = t
    · subst htag
      rcases FindTextureSlot_cases s tag with ⟨r1, r2, r3⟩ | ⟨i, r1, r2, r3, -, r5⟩
      · have hd : decide ((TextureCall.FindTextureSlot tag,
            (s.call (TextureCall.FindTextureSlot tag)).1) =
            (TextureCall.FindTextureSlot tag, TextureReturn.int (-1))) = true := by
          simp [call, r1]
        rw [hd, Bool.or_true]
        simp only [call]
        rw [r3]
        by_cases hin : tag ∈ s.missingTextures
        · have hmt : m = true := (hm r2).1 hin
          simp only [hin, not_true_eq_false, if_false]
          exact ⟨by rw [hc, hmt], fun _ => ⟨fun _ => rfl, fun _ => hin⟩⟩
        · have hmf : m = false := by
            cases m with
            | false => rfl
            | true => exact absurd ((hm r2).2 rfl) hin
          simp only [hin, not_false_eq_true, if_true]
          refine ⟨?_, fun _ => ⟨fun _ => rfl, fun _ => Finset.mem_insert_self _ _⟩⟩
          simp [List.count_append, hc, hmf]
      · have hd : decide ((TextureCall.FindTextureSlot tag,
            (s.call (TextureCall.FindTextureSlot tag)).1) =
            (TextureCall.FindTextureSlot tag, TextureReturn.int (-1))) = false := by
          simp only [call, r1, decide_eq_false_iff_not, Prod.mk.injEq, TextureReturn.int.injEq,
            true_and]
          omega
        rw [hd, Bool.or_false]
        simp only [call]
        rw [r5]
        exact ⟨hc, fun hl => absurd r3 (hl i r2)⟩
    · have hd : decide ((TextureCall.FindTextureSlot tag,
          (s.call (TextureCall.FindTextureSlot tag)).1) =
          (TextureCall.FindTextureSlot t, TextureReturn.int (-1))) = false := by
        simp [htag]
      rw [hd, Bool.or_false]
      have hne : Diag.slotNotFound tag ≠ Diag.slotNotFound t := by
        intro hEq; exact htag (Diag.slotNotFound.inj hEq)
      have htne : t ≠ tag := fun hEq => htag hEq.symm
      rcases FindTextureSlot_cases s tag with ⟨-, -, r3⟩ | ⟨i, -, -, -, -, r5⟩
      · simp only [call]
        rw [r3]
        by_cases hin : tag ∈ s.missingTextures
        · simp only [hin, not_true_eq_false, if_false]
          exact ⟨hc, hm⟩
        · simp only [hin, not_false_eq_true, if_true]
          refine ⟨?_, ?_⟩
          · rw [List.count_append, hc]
            simp [List.count_cons, hne]
          · intro hl
            rw [Finset.mem_insert]
            constructor
            · rintro (hEq | hmem)
              · exact absurd hEq htne
              · exact (hm hl).1 hmem
            · intro hmt; exact Or.inr ((hm hl).2 hmt)
      · simp only [call]
        rw [r5]
        refine ⟨hc, ?_⟩
        intro hl
        rw [Finset.mem_erase]
        constructor
        · rintro ⟨-, hmem⟩; exact (hm hl).1 hmem
        · intro hmt; exact ⟨htne, (hm hl).2 hmt⟩

theorem MissLogged_run (t : String) :
    ∀ (calls : List TextureCall) (s : SceneManager) (m : Bool), MissLogged s t m →
      MissLogged (s.run calls).2 t
        (m || decide ((TextureCall.FindTextureSlot t, TextureReturn.int (-1)) ∈
          (s.run calls).1)) := by
  intro calls
  induction calls with
  | nil => intro s m h; simpa [run] using h
  | cons c cs ih =>
    intro s m h
    have h1 := ih (s.call c).2 _ (MissLogged_call s t m c h)
    simp only [run]
    have hb : (m || decide ((TextureCall.FindTextureSlot t, TextureReturn.int (-1)) ∈
        (c, (s.call c).1) :: ((s.call c).2.run cs).1)) =
        ((m || decide ((c, (s.call c).1) =
          (TextureCall.FindTextureSlot t, TextureReturn.int (-1)))) ||
          decide ((TextureCall.FindTextureSlot t, TextureReturn.int (-1)) ∈
            ((s.call c).2.run cs).1)) := by
      simp only [List.mem_cons, Bool.decide_or, Bool.or_assoc]
      congr 2
      exact decide_eq_decide.mpr eq_comm
    rw [hb]
    exact h1

/-- C9. With the diagnostic stream and the set of reported tags as state: after any sequence
of `CreateGLTexture` and `FindTextureSlot` calls on the constructed registry, the "could
not find texture slot" line for a tag `t` has been written exactly once if some
`FindTextureSlot(t)` call of the sequence returned -1, and never otherwise; a second
consecutive miss for a tag writes nothing further; and a lookup that misses before a failed
load with the same tag misses after it too. -/
theorem FindTextureSlot_miss_logged_once :
    (∀ (calls : List TextureCall) (t : String),
      (construct.run calls).2.cout.count (Diag.slotNotFound t) =
        if (TextureCall.FindTextureSlot t, TextureReturn.int (-1)) ∈ (construct.run calls).1
        then 1 else 0) ∧
    (∀ (s : SceneManager) (t : String), (s.FindTextureSlot t).1 = -1 →
      ((s.FindTextureSlot t).2.FindTextureSlot t).1 = -1 ∧
      ((s.FindTextureSlot t).2.FindTextureSlot t).2.cout = (s.FindTextureSlot t).2.cout) ∧
    (∀ (s : SceneManager) (filename t : String) (image : Option Image) (textureID : Nat),
      (s.FindTextureSlot t).1 = -1 →
      (s.CreateGLTexture filename t image textureID).1 = false →
      ((s.CreateGLTexture filename t image textureID).2.FindTextureSlot t).1 = -1) := by
  refine ⟨?_, ?_, ?_⟩
  · intro calls t
    have h0 : MissLogged construct t false := by
      refine ⟨rfl, fun _ => ?_⟩
      simp [construct]
    have h := (MissLogged_run t calls construct false h0).1
    rw [h, Bool.false_or]
    by_cases hmem : (TextureCall.FindTextureSlot t, TextureReturn.int (-1)) ∈
        (construct.run calls).1
    · simp [hmem]
    · simp [hmem]
  · intro s t hmiss
    have hlive : ∀ i : Fin 16, i.val < s.m_loadedTextures → (s.m_textureIDs i).tag ≠ t := by
      rcases FindTextureSlot_cases s t with ⟨-, r2, -⟩ | ⟨i, r1, -, -, -, -⟩
      · exact r2
      · rw [r1] at hmiss; omega
    have hin : t ∈ (s.FindTextureSlot t).2.missingTextures := by
      rcases FindTextureSlot_cases s t with ⟨-, -, r3⟩ | ⟨i, r1, -, -, -, -⟩
      · rw [r3]
        by_cases hin : t ∈ s.missingTextures
        · simp [hin]
        · simp [hin]
      · rw [r1] at hmiss; omega
    rcases FindTextureSlot_cases (s.FindTextureSlot t).2 t with
      ⟨q1, -, q3⟩ | ⟨i, -, q2, q3, -, -⟩
    · refine ⟨q1, ?_⟩
      rw [q3]
      simp [hin]
    · rw [FindTextureSlot_loaded] at q2
      rw [FindTextureSlot_ids] at q3
      exact absurd q3 (hlive i q2)
  · intro s filename t image textureID hmiss hfail
    have hlive : ∀ i : Fin 16, i.val < s.m_loadedTextures → (s.m_textureIDs i).tag ≠ t := by
      rcases FindTextureSlot_cases s t with ⟨-, r2, -⟩ | ⟨i, r1, -, -, -, -⟩
      · exact r2
      · rw [r1] at hmiss; omega
    obtain ⟨e1, e2⟩ := CreateGLTexture_false_slots s filename t image textureID hfail
    rcases FindTextureSlot_cases (s.CreateGLTexture filename t image textureID).2 t with
      ⟨q1, -, -⟩ | ⟨i, -, q2, q3, -, -⟩
    · exact q1
    · rw [e1] at q2
      rw [e2] at q3
      exact absurd q3 (hlive i q2)

/-! ### Releasing the textures -/

theorem DestroyGLTextures.loop_mem (ids : Fin 16 → TEXTURE_ID) :
    ∀ (k i : Nat) (h : i + k ≤ 16) (j : Fin 16), i ≤ j.val → j.val < i + k →
      ExtCall.glDeleteTextures (ids j).ID ∈ DestroyGLTextures.loop ids k i h := by
  intro k
  induction k with
  | zero => intro i h j h1 h2; omega
  | succ k ih =>
    intro i h j h1 h2
    simp only [DestroyGLTextures.loop, List.mem_cons]
    by_cases hji : j.val = i
    · left
      have : j = ⟨i, by omega⟩ := Fin.ext hji
      rw [this]
    · right
      exact ih (i + 1) (by omega) j (by omega) (by omega)

/-- C10, as the code has it. `DestroyGLTextures` issues `glDeleteTextures` for the texture
name of every live slot and leaves the slot count and every `(tag, ID)` entry as they
were, so `FindTextureSlot` returns for every tag what it returned before the call. -/
theorem DestroyGLTextures_keeps_slots (s : SceneManager) :
    (∀ i : Fin 16, i.val < s.m_loadedTextures →
      ExtCall.glDeleteTextures (s.m_textureIDs i).ID ∈ s.DestroyGLTextures.ext) ∧
    s.DestroyGLTextures.m_loadedTextures = s.m_loadedTextures ∧
    s.DestroyGLTextures.m_textureIDs = s.m_textureIDs ∧
    ∀ tag, (s.DestroyGLTextures.FindTextureSlot tag).1 = (s.FindTextureSlot tag).1 := by
  refine ⟨?_, rfl, rfl, ?_⟩
  · intro i hi
    simp only [DestroyGLTextures, List.mem_append]
    right
    exact DestroyGLTextures.loop_mem _ _ _ _ i (Nat.zero_le _) (by omega)
  · intro tag
    cases hl : FindTextureSlot.loop s.m_textureIDs tag s.m_loadedTextures 0
        (by simpa using s.loaded_le) with
    | none =>
      simp only [FindTextureSlot, DestroyGLTextures, hl]
      split_ifs <;> rfl
    | some r => simp only [FindTextureSlot, DestroyGLTextures, hl]

/-- C10, counterexample. After `DestroyGLTextures` on a registry holding "dome" and "hull"
the slot count is still 2 and `FindTextureSlot("dome")` still returns slot 0, so the
registry is not empty. -/
theorem DestroyGLTextures_registry_not_empty :
    demoRegistry.DestroyGLTextures.m_loadedTextures = 2 ∧
    (demoRegistry.DestroyGLTextures.FindTextureSlot "dome").1 = 0 ∧
    ¬ (demoRegistry.DestroyGLTextures.m_loadedTextures = 0 ∧
        ∀ tag, (demoRegistry.DestroyGLTextures.FindTextureSlot tag).1 = -1) := by
  have h1 : demoRegistry.DestroyGLTextures.m_loadedTextures = 2 := by decide
  have h2 : (demoRegistry.DestroyGLTextures.FindTextureSlot "dome").1 = 0 := by decide
  refine ⟨h1, h2, ?_⟩
  rintro ⟨h, -⟩
  rw [h1] at h
  exact absurd h (by decide)

end SceneManager

/-! ## Properties of the camera -/

namespace ViewManager

section Clamps

variable {α : Type} [LinearOrderedField α]

/-- A property that every call preserves holds after any sequence of calls. -/
theorem run_preserves (M : CMath α) (P : ViewManager α → Prop)
    (hP : ∀ v c, P v → P (v.call M c)) :
    ∀ (calls : List (CameraCall α)) (v : ViewManager α), P v → P (v.run M calls) := by
  intro calls
  induction calls with
  | nil => intro v hv; exact hv
  | cons c cs ih => intro v hv; exact ih (v.call M c) (hP v c hv)

/-- A property that every call preserves holds after each call of any sequence. -/
theorem trace_preserves (M : CMath α) (P : ViewManager α → Prop)
    (hP : ∀ v c, P v → P (v.call M c)) :
    ∀ (calls : List (CameraCall α)) (v : ViewManager α), P v →
      ∀ s ∈ v.trace M calls, P s := by
  intro calls
  induction calls with
  | nil => intro v _ s hs; simp [trace] at hs
  | cons c cs ih =>
    intro v hv s hs
    simp only [trace, List.mem_cons] at hs
    rcases hs with rfl | hs
    · exact hP v c hv
    · exact ih (v.call M c) (hP v c hv) s hs

theorem updateCameraVectors_Pitch (M : CMath α) (v : ViewManager α) :
    (updateCameraVectors M v).Pitch = v.Pitch := rfl

theorem updateCameraVectors_MovementSpeed (M : CMath α) (v : ViewManager α) :
    (updateCameraVectors M v).MovementSpeed = v.MovementSpeed := rfl

theorem ProcessKeyboard_Pitch (M : CMath α) (v : ViewManager α) (direction : Int)
    (deltaTime : α) : (v.ProcessKeyboard M direction deltaTime).Pitch = v.Pitch := by
  simp only [ProcessKeyboard, updateCameraVectors_Pitch]
  split_ifs <;> rfl

theorem ProcessKeyboard_MovementSpeed (M : CMath α) (v : ViewManager α) (direction : Int)
    (deltaTime : α) :
    (v.ProcessKeyboard M direction deltaTime).MovementSpeed = v.MovementSpeed := by
  simp only [ProcessKeyboard, updateCameraVectors_MovementSpeed]
  split_ifs <;> rfl

theorem ProcessMouseMovement_MovementSpeed (M : CMath α) (v : ViewManager α) (x y : α)
    (b : Bool) : (v.ProcessMouseMovement M x y b).MovementSpeed = v.MovementSpeed := by
  simp only [ProcessMouseMovement, updateCameraVectors_MovementSpeed]
  split_ifs <;> rfl

theorem ProcessMouseScroll_Pitch (v : ViewManager α) (y : α) :
    (v.ProcessMouseScroll y).Pitch = v.Pitch := by
  simp only [ProcessMouseScroll]
  split_ifs <;> rfl

/-- The pitch a constrained `ProcessMouseMovement` leaves behind. -/
theorem ProcessMouseMovement_Pitch_bounds (M : CMath α) (v : ViewManager α) (x y : α) :
    -89 ≤ (v.ProcessMouseMovement M x y true).Pitch ∧
    (v.ProcessMouseMovement M x y true).Pitch ≤ 89 := by
  simp only [ProcessMouseMovement, updateCameraVectors_Pitch, if_true]
  split_ifs with h1 h2 h2 <;> dsimp only at * <;> constructor <;> linarith

/-- The speed `ProcessMouseScroll` leaves behind. -/
theorem ProcessMouseScroll_MovementSpeed (v : ViewManager α) (y : α) :
    (v.ProcessMouseScroll y).MovementSpeed = min (max (v.MovementSpeed + 0.1 * y) 1) 10 := by
  simp only [ProcessMouseScroll]
  have e : v.MovementSpeed + y * 0.1 = v.MovementSpeed + 0.1 * y := by ring
  split_ifs with h1 h2 h2
  · norm_num at h2
  · rw [e] at h1
    rw [max_eq_right h1.le, min_eq_left (by norm_num)]
  · rw [e] at h1 h2
    rw [max_eq_left (le_of_not_lt h1), min_eq_right h2.le]
  · rw [e] at h1 h2
    show v.MovementSpeed + y * 0.1 = _
    rw [e, max_eq_left (le_of_not_lt h1), min_eq_left (le_of_not_lt h2)]

theorem call_Pitch_bounds (M : CMath α) (v : ViewManager α) (c : CameraCall α)
    (h : -89 ≤ v.Pitch ∧ v.Pitch ≤ 89) :
    -89 ≤ (v.call M c).Pitch ∧ (v.call M c).Pitch ≤ 89 := by
  cases c with
  | ProcessKeyboard d t => simp only [call]; rw [ProcessKeyboard_Pitch]; exact h
  | ProcessMouseMovement x y => exact ProcessMouseMovement_Pitch_bounds M v x y
  | ProcessMouseScroll y => simp only [call]; rw [ProcessMouseScroll_Pitch]; exact h

theorem call_MovementSpeed_bounds (M : CMath α) (v : ViewManager α) (c : CameraCall α)
    (h : 1 ≤ v.MovementSpeed ∧ v.MovementSpeed ≤ 10) :
    1 ≤ (v.call M c).MovementSpeed ∧ (v.call M c).MovementSpeed ≤ 10 := by
  cases c with
  | ProcessKeyboard d t => simp only [call]; rw [ProcessKeyboard_MovementSpeed]; exact h
  | ProcessMouseMovement x y =>
    simp only [call]; rw [ProcessMouseMovement_MovementSpeed]; exact h
  | ProcessMouseScroll y =>
    simp only [call]
    rw [ProcessMouseScroll_MovementSpeed]
    exact ⟨le_min (le_max_right _ _) (by norm_num), min_le_right _ _⟩

/-- C5. With `float` an exact ordered field: one `ProcessMouseMovement` call with
`constrainPitch = true` leaves the pitch in `[-89, 89]` whatever the camera state and the
offsets were; and from the constructed camera, after each call of any sequence of
constrained `ProcessMouseMovement` calls the pitch is in `[-89, 89]`. -/
theorem ProcessMouseMovement_pitch_clamped (M : CMath α) :
    (∀ (v : ViewManager α) (xOffset yOffset : α),
      -89 ≤ (v.ProcessMouseMovement M xOffset yOffset true).Pitch ∧
      (v.ProcessMouseMovement M xOffset yOffset true).Pitch ≤ 89) ∧
    (∀ (offsets : List (α × α)),
      ∀ s ∈ (construct M).trace M
          (offsets.map fun o => CameraCall.ProcessMouseMovement o.1 o.2),
        -89 ≤ s.Pitch ∧ s.Pitch ≤ 89) := by
  refine ⟨ProcessMouseMovement_Pitch_bounds M, fun offsets => ?_⟩
  apply trace_preserves M (fun v => -89 ≤ v.Pitch ∧ v.Pitch ≤ 89) (call_Pitch_bounds M)
  simp only [construct, updateCameraVectors_Pitch]
  constructor <;> norm_num

/-- C6. With `float` an exact ordered field: `ProcessMouseScroll` sets `MovementSpeed` to
`clamp(MovementSpeed + 0.1 * delta, 1, 10)`; and from the constructed camera (speed 2.5),
after each call of any sequence of `ProcessMouseScroll` calls the speed is in `[1, 10]`. -/
theorem ProcessMouseScroll_speed_clamped (M : CMath α) :
    (∀ (v : ViewManager α) (yOffset : α),
      (v.ProcessMouseScroll yOffset).MovementSpeed
        = min (max (v.MovementSpeed + 0.1 * yOffset) 1) 10) ∧
    (construct M).MovementSpeed = 2.5 ∧
    (∀ (deltas : List α),
      ∀ s ∈ (construct M).trace M (deltas.map fun d => CameraCall.ProcessMouseScroll d),
        1 ≤ s.MovementSpeed ∧ s.MovementSpeed ≤ 10) := by
  refine ⟨ProcessMouseScroll_MovementSpeed, rfl, fun deltas => ?_⟩
  apply trace_preserves M (fun v => 1 ≤ v.MovementSpeed ∧ v.MovementSpeed ≤ 10)
    (call_MovementSpeed_bounds M)
  simp only [construct, updateCameraVectors_MovementSpeed]
  constructor <;> norm_num

end Clamps

section RealCamera

/-! ### Trigonometry over the reals -/

theorem dot_scale (a b : glm.vec3 ℝ) (c d : ℝ) :
    glm.dot (a * c) (b * d) = c * d * glm.dot a b := by
  show a.x * c * (b.x * d) + a.y * c * (b.y * d) + a.z * c * (b.z * d)
    = c * d * (a.x * b.x + a.y * b.y + a.z * b.z)
  ring

theorem dot_comm (a b : glm.vec3 ℝ) : glm.dot a b = glm.dot b a := by
  simp only [glm.dot]; ring

theorem dot_cross_left (a b : glm.vec3 ℝ) : glm.dot (glm.cross a b) a = 0 := by
  simp only [glm.dot, glm.cross]; ring

theorem dot_cross_right (a b : glm.vec3 ℝ) : glm.dot (glm.cross a b) b = 0 := by
  simp only [glm.dot, glm.cross]; ring

/-- Lagrange's identity for the cross product. -/
theorem dot_cross_self (a b : glm.vec3 ℝ) :
    glm.dot (glm.cross a b) (glm.cross a b)
      = glm.dot a a * glm.dot b b - glm.dot a b ^ 2 := by
  simp only [glm.dot, glm.cross]; ring

theorem dot_normalize_left (M : CMath ℝ) (a b : glm.vec3 ℝ) :
    glm.dot (glm.normalize M a) b = 1 / M.sqrt (glm.dot a a) * glm.dot a b := by
  have h := dot_scale a b (1 / M.sqrt (glm.dot a a)) 1
  have e : b * (1 : ℝ) = b := by
    show (⟨b.x * 1, b.y * 1, b.z * 1⟩ : glm.vec3 ℝ) = b
    simp
  rw [e] at h
  simp only [glm.normalize]
  rw [h]; ring

/-- Normalising a vector that is not zero gives a vector of squared length 1. -/
theorem dot_normalize_self (M : CMath ℝ) (hs : M.sqrt = Real.sqrt) (a : glm.vec3 ℝ)
    (ha : 0 < glm.dot a a) : glm.dot (glm.normalize M a) (glm.normalize M a) = 1 := by
  simp only [glm.normalize]
  rw [dot_scale, hs]
  have h1 : Real.sqrt (glm.dot a a) * Real.sqrt (glm.dot a a) = glm.dot a a :=
    Real.mul_self_sqrt ha.le
  have h2 : Real.sqrt (glm.dot a a) ≠ 0 := (Real.sqrt_pos.mpr ha).ne'
  have h3 : 1 / Real.sqrt (glm.dot a a) * (1 / Real.sqrt (glm.dot a a)) * glm.dot a a
      = glm.dot a a / (Real.sqrt (glm.dot a a) * Real.sqrt (glm.dot a a)) := by
    field_simp
  rw [h3, h1]
  exact div_self ha.ne'

/-- For a pitch of at most 89 degrees either way the cosine is positive. -/
theorem cos_radians_pos (M : CMath ℝ) (hM : M.IsReal) (p : ℝ) (h1 : -89 ≤ p) (h2 : p ≤ 89) :
    0 < Real.cos (glm.radians M p) := by
  obtain ⟨-, -, -, hpi⟩ := hM
  simp only [glm.radians, hpi]
  apply Real.cos_pos_of_mem_Ioo
  have := Real.pi_pos
  constructor <;> nlinarith

/-- The vectors `updateCameraVectors` derives are unit vectors orthogonal to one another,
whenever the camera is off the target and not straight above or below it. -/
theorem updateCameraVectors_orthonormal (M : CMath ℝ) (hM : M.IsReal) (v : ViewManager ℝ)
    (hW : v.WorldUp = ⟨0, 1, 0⟩) (hD : v.DistanceToTarget ≠ 0)
    (hP : Real.cos (glm.radians M v.Pitch) ≠ 0) :
    glm.dot (updateCameraVectors M v).Front (updateCameraVectors M v).Front = 1 ∧
    glm.dot (updateCameraVectors M v).Right (updateCameraVectors M v).Right = 1 ∧
    glm.dot (updateCameraVectors M v).Up (updateCameraVectors M v).Up = 1 ∧
    glm.dot (updateCameraVectors M v).Front (updateCameraVectors M v).Right = 0 ∧
    glm.dot (updateCameraVectors M v).Front (updateCameraVectors M v).Up = 0 ∧
    glm.dot (updateCameraVectors M v).Right (updateCameraVectors M v).Up = 0 := by
  obtain ⟨hcos, hsin, hsqrt, -⟩ := hM
  -- the vector from the camera to the target
  obtain ⟨d, hd⟩ : ∃ d, d = v.Target - (updateCameraVectors M v).Position := ⟨_, rfl⟩
  have hy := Real.cos_sq_add_sin_sq (glm.radians M v.Yaw)
  have hp := Real.cos_sq_add_sin_sq (glm.radians M v.Pitch)
  have hdy : d.y = -(v.DistanceToTarget * Real.sin (glm.radians M v.Pitch)) := by
    rw [hd]
    show v.Target.y - (v.Target.y + v.DistanceToTarget * M.sin (glm.radians M v.Pitch)) = _
    rw [hsin]; ring
  have hdd : glm.dot d d = v.DistanceToTarget ^ 2 := by
    have e : glm.dot d d = v.DistanceToTarget ^ 2 *
        ((Real.cos (glm.radians M v.Yaw) ^ 2 + Real.sin (glm.radians M v.Yaw) ^ 2) *
          Real.cos (glm.radians M v.Pitch) ^ 2 + Real.sin (glm.radians M v.Pitch) ^ 2) := by
      rw [hd]
      show (v.Target.x - (v.Target.x + v.DistanceToTarget * M.cos (glm.radians M v.Yaw)
              * M.cos (glm.radians M v.Pitch))) *
            (v.Target.x - (v.Target.x + v.DistanceToTarget * M.cos (glm.radians M v.Yaw)
              * M.cos (glm.radians M v.Pitch))) +
          (v.Target.y - (v.Target.y + v.DistanceToTarget * M.sin (glm.radians M v.Pitch))) *
            (v.Target.y - (v.Target.y + v.DistanceToTarget * M.sin (glm.radians M v.Pitch))) +
          (v.Target.z - (v.Target.z + v.DistanceToTarget * M.sin (glm.radians M v.Yaw)
              * M.cos (glm.radians M v.Pitch))) *
            (v.Target.z - (v.Target.z + v.DistanceToTarget * M.sin (glm.radians M v.Yaw)
              * M.cos (glm.radians M v.Pitch))) = _
      rw [hcos, hsin]; ring
    rw [e, hy, one_mul, hp, mul_one]
  have hDpos : 0 < v.DistanceToTarget ^ 2 := by positivity
  have hdpos : 0 < glm.dot d d := by rw [hdd]; exact hDpos
  -- Front
  have hF : (updateCameraVectors M v).Front = glm.normalize M d := by rw [hd]; rfl
  have hFF : glm.dot (glm.normalize M d) (glm.normalize M d) = 1 :=
    dot_normalize_self M hsqrt d hdpos
  have hFW : glm.dot (glm.normalize M d) v.WorldUp ^ 2
      = Real.sin (glm.radians M v.Pitch) ^ 2 := by
    rw [dot_normalize_left, hW, hsqrt, hdd]
    have e : glm.dot d (⟨0, 1, 0⟩ : glm.vec3 ℝ) = d.y := by simp [glm.dot]
    have hsq : Real.sqrt (v.DistanceToTarget ^ 2) ^ 2 = v.DistanceToTarget ^ 2 :=
      Real.sq_sqrt hDpos.le
    have hne : Real.sqrt (v.DistanceToTarget ^ 2) ≠ 0 := (Real.sqrt_pos.mpr hDpos).ne'
    rw [e, hdy, mul_pow, div_pow, one_pow, hsq]
    field_simp
    ring
  -- Right
  have hWW : glm.dot v.WorldUp v.WorldUp = 1 := by rw [hW]; simp [glm.dot]
  have hc1 : glm.dot (glm.cross (glm.normalize M d) v.WorldUp)
      (glm.cross (glm.normalize M d) v.WorldUp) = Real.cos (glm.radians M v.Pitch) ^ 2 := by
    rw [dot_cross_self, hFF, hWW, hFW]; linarith
  have hc1pos : 0 < glm.dot (glm.cross (glm.normalize M d) v.WorldUp)
      (glm.cross (glm.normalize M d) v.WorldUp) := by rw [hc1]; positivity
  have hR : (updateCameraVectors M v).Right
      = glm.normalize M (glm.cross (glm.normalize M d) v.WorldUp) := by rw [hd]; rfl
  have hRR := dot_normalize_self M hsqrt _ hc1pos
  have hRF : glm.dot (glm.normalize M (glm.cross (glm.normalize M d) v.WorldUp))
      (glm.normalize M d) = 0 := by
    rw [dot_normalize_left, dot_cross_left, mul_zero]
  -- Up
  have hU : (updateCameraVectors M v).Up
      = glm.normalize M (glm.cross
          (glm.normalize M (glm.cross (glm.normalize M d) v.WorldUp)) (glm.normalize M d)) := by
    rw [hd]; rfl
  have hc2 : glm.dot
      (glm.cross (glm.normalize M (glm.cross (glm.normalize M d) v.WorldUp))
        (glm.normalize M d))
      (glm.cross (glm.normalize M (glm.cross (glm.normalize M d) v.WorldUp))
        (glm.normalize M d)) = 1 := by
    rw [dot_cross_self, hRR, hFF, hRF]; norm_num
  have hUU := dot_normalize_self M hsqrt _ (by rw [hc2]; norm_num)
  rw [hF, hR, hU]
  refine ⟨hFF, hRR, hUU, ?_, ?_, ?_⟩
  · rw [dot_comm]; exact hRF
  · rw [dot_comm, dot_normalize_left, dot_cross_right, mul_zero]
  · rw [dot_comm, dot_normalize_left, dot_cross_left, mul_zero]

theorem ProcessKeyboard_eq_update (M : CMath ℝ) (v : ViewManager ℝ) (direction : Int)
    (deltaTime : ℝ) :
    ∃ u, v.ProcessKeyboard M direction deltaTime = updateCameraVectors M u ∧
      u.WorldUp = v.WorldUp ∧ u.DistanceToTarget = v.DistanceToTarget ∧ u.Pitch = v.Pitch := by
  simp only [ProcessKeyboard]
  split_ifs <;> exact ⟨_, rfl, rfl, rfl, rfl⟩

theorem ProcessMouseMovement_eq_update (M : CMath ℝ) (v : ViewManager ℝ) (x y : ℝ) :
    ∃ u, v.ProcessMouseMovement M x y true = updateCameraVectors M u ∧
      u.WorldUp = v.WorldUp ∧ u.DistanceToTarget = v.DistanceToTarget ∧
      -89 ≤ u.Pitch ∧ u.Pitch ≤ 89 := by
  simp only [ProcessMouseMovement, if_true]
  split_ifs with h1 h2 h2 <;> dsimp only at * <;>
    refine ⟨_, rfl, rfl, rfl, ?_, ?_⟩ <;> dsimp only <;> linarith

/-- Every camera call keeps the world up vector, the distance and the pitch range, and
leaves the derived vectors orthonormal. -/
theorem call_orthonormal (M : CMath ℝ) (hM : M.IsReal) (v : ViewManager ℝ) (c : CameraCall ℝ)
    (h : v.WorldUp = ⟨0, 1, 0⟩ ∧ v.DistanceToTarget = 10 ∧ (-89 ≤ v.Pitch ∧ v.Pitch ≤ 89) ∧
      glm.dot v.Front v.Front = 1 ∧ glm.dot v.Right v.Right = 1 ∧ glm.dot v.Up v.Up = 1 ∧
      glm.dot v.Front v.Right = 0 ∧ glm.dot v.Front v.Up = 0 ∧ glm.dot v.Right v.Up = 0) :
    (v.call M c).WorldUp = ⟨0, 1, 0⟩ ∧ (v.call M c).DistanceToTarget = 10 ∧
      (-89 ≤ (v.call M c).Pitch ∧ (v.call M c).Pitch ≤ 89) ∧
      glm.dot (v.call M c).Front (v.call M c).Front = 1 ∧
      glm.dot (v.call M c).Right (v.call M c).Right = 1 ∧
      glm.dot (v.call M c).Up (v.call M c).Up = 1 ∧
      glm.dot (v.call M c).Front (v.call M c).Right = 0 ∧
      glm.dot (v.call M c).Front (v.call M c).Up = 0 ∧
      glm.dot (v.call M c).Right (v.call M c).Up = 0 := by
  obtain ⟨hW, hD, hP, hO⟩ := h
  have key : ∀ u : ViewManager ℝ, u.WorldUp = v.WorldUp →
      u.DistanceToTarget = v.DistanceToTarget → -89 ≤ u.Pitch → u.Pitch ≤ 89 →
      (updateCameraVectors M u).WorldUp = ⟨0, 1, 0⟩ ∧
      (updateCameraVectors M u).DistanceToTarget = 10 ∧
      (-89 ≤ (updateCameraVectors M u).Pitch ∧ (updateCameraVectors M u).Pitch ≤ 89) ∧
      glm.dot (updateCameraVectors M u).Front (updateCameraVectors M u).Front = 1 ∧
      glm.dot (updateCameraVectors M u).Right (updateCameraVectors M u).Right = 1 ∧
      glm.dot (updateCameraVectors M u).Up (updateCameraVectors M u).Up = 1 ∧
      glm.dot (updateCameraVectors M u).Front (updateCameraVectors M u).Right = 0 ∧
      glm.dot (updateCameraVectors M u).Front (updateCameraVectors M u).Up = 0 ∧
      glm.dot (updateCameraVectors M u).Right (updateCameraVectors M u).Up = 0 := by
    intro u uW uD uP1 uP2
    refine ⟨uW.trans hW, uD.trans hD, ⟨uP1, uP2⟩, ?_⟩
    apply updateCameraVectors_orthonormal M hM u (uW.trans hW)
    · rw [uD, hD]; norm_num
    · exact (cos_radians_pos M hM u.Pitch uP1 uP2).ne'
  cases c with
  | ProcessKeyboard d t =>
    obtain ⟨u, hu, uW, uD, uP⟩ := ProcessKeyboard_eq_update M v d t
    simp only [call]
    rw [hu]
    exact key u uW uD (by rw [uP]; exact hP.1) (by rw [uP]; exact hP.2)
  | ProcessMouseMovement x y =>
    obtain ⟨u, hu, uW, uD, uP1, uP2⟩ := ProcessMouseMovement_eq_update M v x y
    simp only [call]
    rw [hu]
    exact key u uW uD uP1 uP2
  | ProcessMouseScroll y =>
    have e : v.call M (CameraCall.ProcessMouseScroll y) =
        { v with MovementSpeed := (v.ProcessMouseScroll y).MovementSpeed } := by
      simp only [call, ProcessMouseScroll]
      split_ifs <;> rfl
    rw [e]
    exact ⟨hW, hD, hP, hO⟩

theorem construct_orthonormal (M : CMath ℝ) (hM : M.IsReal) :
    (construct M).WorldUp = ⟨0, 1, 0⟩ ∧ (construct M).DistanceToTarget = 10 ∧
      (-89 ≤ (construct M).Pitch ∧ (construct M).Pitch ≤ 89) ∧
      glm.dot (construct M).Front (construct M).Front = 1 ∧
      glm.dot (construct M).Right (construct M).Right = 1 ∧
      glm.dot (construct M).Up (construct M).Up = 1 ∧
      glm.dot (construct M).Front (construct M).Right = 0 ∧
      glm.dot (construct M).Front (construct M).Up = 0 ∧
      glm.dot (construct M).Right (construct M).Up = 0 := by
  have hp1 : (-89 : ℝ) ≤ 0 := by norm_num
  have hp2 : (0 : ℝ) ≤ 89 := by norm_num
  refine ⟨rfl, rfl, ⟨hp1, hp2⟩, ?_⟩
  apply updateCameraVectors_orthonormal M hM _ rfl
  · show (10 : ℝ) ≠ 0
    norm_num
  · exact (cos_radians_pos M hM _ hp1 hp2).ne'

/-- C8. Over the reals, in every camera state reached from the constructor by any sequence
of `ProcessKeyboard`, constrained `ProcessMouseMovement` and `ProcessMouseScroll` calls,
`Front`, `Right` and `Up` each have length 1 and are orthogonal to one another. -/
theorem derived_vectors_orthonormal (M : CMath ℝ) (hM : M.IsReal)
    (calls : List (CameraCall ℝ)) :
    glm.length M ((construct M).run M calls).Front = 1 ∧
    glm.length M ((construct M).run M calls).Right = 1 ∧
    glm.length M ((construct M).run M calls).Up = 1 ∧
    glm.dot ((construct M).run M calls).Front ((construct M).run M calls).Right = 0 ∧
    glm.dot ((construct M).run M calls).Front ((construct M).run M calls).Up = 0 ∧
    glm.dot ((construct M).run M calls).Right ((construct M).run M calls).Up = 0 := by
  obtain ⟨-, -, -, h1, h2, h3, h4, h5, h6⟩ :=
    run_preserves M _ (call_orthonormal M hM) calls _ (construct_orthonormal M hM)
  have hs : M.sqrt = Real.sqrt := hM.2.2.1
  refine ⟨?_, ?_, ?_, h4, h5, h6⟩
  · simp only [glm.length]
    rw [h1, hs, Real.sqrt_one]
  · simp only [glm.length]
    rw [h2, hs, Real.sqrt_one]
  · simp only [glm.length]
    rw [h3, hs, Real.sqrt_one]

theorem derived_vectors_orthonormal_witness :
    (CMath.mk Real.cos Real.sin Real.sqrt Real.pi).IsReal ∧
    glm.length (CMath.mk Real.cos Real.sin Real.sqrt Real.pi)
      ((construct (CMath.mk Real.cos Real.sin Real.sqrt Real.pi)).run
        (CMath.mk Real.cos Real.sin Real.sqrt Real.pi)
        [CameraCall.ProcessMouseMovement 250 4000, CameraCall.ProcessKeyboard 3 0.5,
          CameraCall.ProcessMouseScroll 7]).Front = 1 ∧
    glm.dot
      ((construct (CMath.mk Real.cos Real.sin Real.sqrt Real.pi)).run
        (CMath.mk Real.cos Real.sin Real.sqrt Real.pi)
        [CameraCall.ProcessMouseMovement 250 4000, CameraCall.ProcessKeyboard 3 0.5,
          CameraCall.ProcessMouseScroll 7]).Right
      ((construct (CMath.mk Real.cos Real.sin Real.sqrt Real.pi)).run
        (CMath.mk Real.cos Real.sin Real.sqrt Real.pi)
        [CameraCall.ProcessMouseMovement 250 4000, CameraCall.ProcessKeyboard 3 0.5,
          CameraCall.ProcessMouseScroll 7]).Up = 0 :=
  ⟨⟨rfl, rfl, rfl, rfl⟩,
    (derived_vectors_orthonormal _ ⟨rfl, rfl, rfl, rfl⟩ _).1,
    (derived_vectors_orthonormal _ ⟨rfl, rfl, rfl, rfl⟩ _).2.2.2.2.2⟩

/-! ### The constructed position -/

/-- With the target at the origin, yaw -90, pitch 0 and distance 10 the derived position
is `(0, 0, -10)`: the camera sits at `Target + 10 * (cos yaw, 0, sin yaw)`. -/
theorem updateCameraVectors_Position_at (M : CMath ℝ) (hM : M.IsReal) (v : ViewManager ℝ)
    (hT : v.Target = ⟨0, 0, 0⟩) (hY : v.Yaw = -90) (hP : v.Pitch = 0)
    (hD : v.DistanceToTarget = 10) :
    (updateCameraVectors M v).Position = ⟨0, 0, -10⟩ := by
  obtain ⟨hcos, hsin, -, hpi⟩ := hM
  have ry : glm.radians M (-90) = -(Real.pi / 2) := by
    simp only [glm.radians, hpi]; ring
  have rp : glm.radians M 0 = 0 := by simp [glm.radians]
  simp only [updateCameraVectors, hT, hY, hP, hD, ry, rp, hcos, hsin, Real.cos_neg,
    Real.sin_neg, Real.cos_pi_div_two, Real.sin_pi_div_two, Real.cos_zero, Real.sin_zero]
  norm_num

/-- C7, as the code has it. Over the reals, with target `(0,0,0)`, yaw -90 degrees, pitch 0
and distance 10, `updateCameraVectors` derives the position `(0, 0, -10)`: x = 0, y = 0 and
z = 0 + 10 * sin(-90°) * cos(0°) = -10. -/
theorem updateCameraVectors_initial_position (M : CMath ℝ) (hM : M.IsReal)
    (v : ViewManager ℝ) (hT : v.Target = ⟨0, 0, 0⟩) (hY : v.Yaw = -90) (hP : v.Pitch = 0)
    (hD : v.DistanceToTarget = 10) :
    (updateCameraVectors M v).Position.x = 0 ∧
    (updateCameraVectors M v).Position.y = 0 ∧
    (updateCameraVectors M v).Position.z = -10 := by
  rw [updateCameraVectors_Position_at M hM v hT hY hP hD]
  exact ⟨rfl, rfl, rfl⟩

theorem updateCameraVectors_initial_position_witness :
    (CMath.mk Real.cos Real.sin Real.sqrt Real.pi).IsReal ∧
    (updateCameraVectors (CMath.mk Real.cos Real.sin Real.sqrt Real.pi)
      (construct (CMath.mk Real.cos Real.sin Real.sqrt Real.pi))).Position.x = 0 ∧
    (updateCameraVectors (CMath.mk Real.cos Real.sin Real.sqrt Real.pi)
      (construct (CMath.mk Real.cos Real.sin Real.sqrt Real.pi))).Position.y = 0 ∧
    (updateCameraVectors (CMath.mk Real.cos Real.sin Real.sqrt Real.pi)
      (construct (CMath.mk Real.cos Real.sin Real.sqrt Real.pi))).Position.z = -10 :=
  ⟨⟨rfl, rfl, rfl, rfl⟩,
    updateCameraVectors_initial_position _ ⟨rfl, rfl, rfl, rfl⟩ _ rfl rfl rfl rfl⟩

/-- C7, counterexample. The camera the constructor builds (target `(0,0,0)`, yaw -90, pitch
0, distance 10) is at `(0, 0, -10)` over the reals, so its z coordinate is not `+10`. -/
theorem construct_position_not_plus_ten :
    (construct (CMath.mk Real.cos Real.sin Real.sqrt Real.pi)).Target = ⟨0, 0, 0⟩ ∧
    (construct (CMath.mk Real.cos Real.sin Real.sqrt Real.pi)).Yaw = -90 ∧
    (construct (CMath.mk Real.cos Real.sin Real.sqrt Real.pi)).Pitch = 0 ∧
    (construct (CMath.mk Real.cos Real.sin Real.sqrt Real.pi)).DistanceToTarget = 10 ∧
    (construct (CMath.mk Real.cos Real.sin Real.sqrt Real.pi)).Position = ⟨0, 0, -10⟩ ∧
    (construct (CMath.mk Real.cos Real.sin Real.sqrt Real.pi)).Position.z ≠ 10 := by
  have h : (construct (CMath.mk Real.cos Real.sin Real.sqrt Real.pi)).Position
      = ⟨0, 0, -10⟩ :=
    updateCameraVectors_Position_at _ ⟨rfl, rfl, rfl, rfl⟩ _ rfl rfl rfl rfl
  refine ⟨rfl, rfl, rfl, rfl, h, ?_⟩
  rw [h]
  norm_num

end RealCamera

end ViewManager

/-! ## Uniqueness of tags -/

namespace SceneManager

/-- A load that reports success has written its tag and texture name into the next slot. -/
theorem CreateGLTexture_true_slots (s : SceneManager) (filename tag : String)
    (image : Option Image) (textureID : Nat)
    (h : (s.CreateGLTexture filename tag image textureID).1 = true) :
    ∃ hN : s.m_loadedTextures < 16,
      (s.CreateGLTexture filename tag image textureID).2.m_loadedTextures
        = s.m_loadedTextures + 1 ∧
      (s.CreateGLTexture filename tag image textureID).2.m_textureIDs
        = Function.update s.m_textureIDs ⟨s.m_loadedTextures, hN⟩
            { ID := textureID, tag := tag } := by
  by_cases hfull : s.m_loadedTextures ≥ 16
  · simp [CreateGLTexture, hfull] at h
  · have hN : s.m_loadedTextures < 16 := by omega
    cases image with
    | none => simp [CreateGLTexture, hfull] at h
    | some img =>
      by_cases h3 : img.colorChannels = 3
      · exact ⟨hN, (CreateGLTexture_registers s filename tag img textureID hN (Or.inl h3)).2⟩
      · by_cases h4 : img.colorChannels = 4
        · exact ⟨hN, (CreateGLTexture_registers s filename tag img textureID hN (Or.inr h4)).2⟩
        · have := (CreateGLTexture_rejects_channels s filename tag img textureID h3 h4).1
          rw [this] at h
          exact absurd h (by decide)

/-- One load keeps the live tags pairwise distinct when its tag is not live yet, and the
only tag it can make live is its own. -/
theorem CreateGLTexture_keeps_unique (s : SceneManager) (filename tag : String)
    (image : Option Image) (textureID : Nat)
    (hu : ∀ i j : Fin 16, i.val < s.m_loadedTextures → j.val < s.m_loadedTextures →
      (s.m_textureIDs i).tag = (s.m_textureIDs j).tag → i = j)
    (hfresh : ∀ i : Fin 16, i.val < s.m_loadedTextures → (s.m_textureIDs i).tag ≠ tag) :
    (∀ i j : Fin 16,
      i.val < (s.CreateGLTexture filename tag image textureID).2.m_loadedTextures →
      j.val < (s.CreateGLTexture filename tag image textureID).2.m_loadedTextures →
      ((s.CreateGLTexture filename tag image textureID).2.m_textureIDs i).tag
        = ((s.CreateGLTexture filename tag image textureID).2.m_textureIDs j).tag → i = j) ∧
    (∀ t : String, t ≠ tag →
      (∀ i : Fin 16, i.val < s.m_loadedTextures → (s.m_textureIDs i).tag ≠ t) →
      ∀ i : Fin 16,
        i.val < (s.CreateGLTexture filename tag image textureID).2.m_loadedTextures →
        ((s.CreateGLTexture filename tag image textureID).2.m_textureIDs i).tag ≠ t) := by
  cases hr : (s.CreateGLTexture filename tag image textureID).1 with
  | false =>
    obtain ⟨e1, e2⟩ := CreateGLTexture_false_slots s filename tag image textureID hr
    rw [e1, e2]
    exact ⟨hu, fun t _ ht => ht⟩
  | true =>
    obtain ⟨hN, e1, e2⟩ := CreateGLTexture_true_slots s filename tag image textureID hr
    rw [e1, e2]
    have hval : ∀ i : Fin 16, i.val < s.m_loadedTextures + 1 →
        (i.val < s.m_loadedTextures ∧
          Function.update s.m_textureIDs ⟨s.m_loadedTextures, hN⟩
            { ID := textureID, tag := tag } i = s.m_textureIDs i) ∨
        (i = ⟨s.m_loadedTextures, hN⟩ ∧
          Function.update s.m_textureIDs ⟨s.m_loadedTextures, hN⟩
            { ID := textureID, tag := tag } i = { ID := textureID, tag := tag }) := by
      intro i hi
      by_cases hEq : i = ⟨s.m_loadedTextures, hN⟩
      · right
        exact ⟨hEq, by rw [hEq, Function.update_same]⟩
      · left
        have hne : i.val ≠ s.m_loadedTextures := fun hv => hEq (Fin.ext hv)
        exact ⟨by omega, Function.update_noteq hEq _ _⟩
    constructor
    · intro i j hi hj ht
      rcases hval i hi with ⟨hi', ei⟩ | ⟨hi', ei⟩ <;> rcases hval j hj with ⟨hj', ej⟩ | ⟨hj', ej⟩
      · rw [ei, ej] at ht
        exact hu i j hi' hj' ht
      · rw [ei, ej] at ht
        exact absurd ht (hfresh i hi')
      · rw [ei, ej] at ht
        exact absurd ht.symm (hfresh j hj')
      · rw [hi', hj']
    · intro t htne ht i hi
      rcases hval i hi with ⟨hi', ei⟩ | ⟨-, ei⟩
      · rw [ei]
        exact ht i hi'
      · rw [ei]
        exact fun hEq => htne hEq.symm

/-- Loads whose tags are pairwise distinct and not live yet keep the live tags distinct. -/
theorem loads_keep_unique :
    ∀ (loads : List (String × String × Option Image × Nat)) (s : SceneManager),
      (loads.map fun l => l.2.1).Nodup →
      (∀ i j : Fin 16, i.val < s.m_loadedTextures → j.val < s.m_loadedTextures →
        (s.m_textureIDs i).tag = (s.m_textureIDs j).tag → i = j) →
      (∀ l ∈ loads, ∀ i : Fin 16, i.val < s.m_loadedTextures →
        (s.m_textureIDs i).tag ≠ l.2.1) →
      ∀ i j : Fin 16,
        i.val < (s.run (loads.map fun l =>
          TextureCall.CreateGLTexture l.1 l.2.1 l.2.2.1 l.2.2.2)).2.m_loadedTextures →
        j.val < (s.run (loads.map fun l =>
          TextureCall.CreateGLTexture l.1 l.2.1 l.2.2.1 l.2.2.2)).2.m_loadedTextures →
        ((s.run (loads.map fun l =>
          TextureCall.CreateGLTexture l.1 l.2.1 l.2.2.1 l.2.2.2)).2.m_textureIDs i).tag
          = ((s.run (loads.map fun l =>
          TextureCall.CreateGLTexture l.1 l.2.1 l.2.2.1 l.2.2.2)).2.m_textureIDs j).tag →
        i = j := by
  intro loads
  induction loads with
  | nil => intro s _ hu _; simpa [run] using hu
  | cons l ls ih =>
    intro s hnd hu hfresh
    rw [List.map_cons, List.nodup_cons] at hnd
    obtain ⟨hl, hnd⟩ := hnd
    obtain ⟨k1, k2⟩ := CreateGLTexture_keeps_unique s l.1 l.2.1 l.2.2.1 l.2.2.2 hu
      (hfresh l (List.mem_cons_self _ _))
    simp only [List.map_cons, run, call]
    apply ih _ hnd k1
    intro l' hl' i hi
    apply k2 l'.2.1 _ (hfresh l' (List.mem_cons_of_mem _ hl')) i hi
    intro hEq
    exact hl (List.mem_map.mpr ⟨l', hl', hEq⟩)

/-- C11, as the code has it. From the constructed registry, after any sequence of
`CreateGLTexture` calls whose tags are pairwise distinct, no two live slots carry the same
tag. (`CreateGLTexture` does not look at the tags already registered.) -/
theorem distinct_loads_unique_tags (loads : List (String × String × Option Image × Nat))
    (h : (loads.map fun l => l.2.1).Nodup) :
    ∀ i j : Fin 16,
      i.val < (construct.run (loads.map fun l =>
        TextureCall.CreateGLTexture l.1 l.2.1 l.2.2.1 l.2.2.2)).2.m_loadedTextures →
      j.val < (construct.run (loads.map fun l =>
        TextureCall.CreateGLTexture l.1 l.2.1 l.2.2.1 l.2.2.2)).2.m_loadedTextures →
      ((construct.run (loads.map fun l =>
        TextureCall.CreateGLTexture l.1 l.2.1 l.2.2.1 l.2.2.2)).2.m_textureIDs i).tag
        = ((construct.run (loads.map fun l =>
        TextureCall.CreateGLTexture l.1 l.2.1 l.2.2.1 l.2.2.2)).2.m_textureIDs j).tag →
      i = j := by
  apply loads_keep_unique loads construct h
  · intro i j hi
    exact absurd hi (Nat.not_lt_zero _)
  · intro l _ i hi
    exact absurd hi (Nat.not_lt_zero _)

theorem distinct_loads_unique_tags_witness :
    ([("a.jpg", "dome", some (Image.mk 4 4 3), 7),
      ("b.png", "hull", some (Image.mk 2 2 4), 9)].map fun l => l.2.1).Nodup ∧
    ∀ i j : Fin 16,
      i.val < (construct.run ([("a.jpg", "dome", some (Image.mk 4 4 3), 7),
        ("b.png", "hull", some (Image.mk 2 2 4), 9)].map fun l =>
        TextureCall.CreateGLTexture l.1 l.2.1 l.2.2.1 l.2.2.2)).2.m_loadedTextures →
      j.val < (construct.run ([("a.jpg", "dome", some (Image.mk 4 4 3), 7),
        ("b.png", "hull", some (Image.mk 2 2 4), 9)].map fun l =>
        TextureCall.CreateGLTexture l.1 l.2.1 l.2.2.1 l.2.2.2)).2.m_loadedTextures →
      ((construct.run ([("a.jpg", "dome", some (Image.mk 4 4 3), 7),
        ("b.png", "hull", some (Image.mk 2 2 4), 9)].map fun l =>
        TextureCall.CreateGLTexture l.1 l.2.1 l.2.2.1 l.2.2.2)).2.m_textureIDs i).tag
        = ((construct.run ([("a.jpg", "dome", some (Image.mk 4 4 3), 7),
        ("b.png", "hull", some (Image.mk 2 2 4), 9)].map fun l =>
        TextureCall.CreateGLTexture l.1 l.2.1 l.2.2.1 l.2.2.2)).2.m_textureIDs j).tag →
      i = j :=
  ⟨by decide, distinct_loads_unique_tags _ (by decide)⟩

/-- C11, counterexample. Loading the tag "dome" twice into the constructed registry gives
two live slots, 0 and 1, that both carry "dome". -/
theorem same_tag_loaded_twice :
    domeTwice.m_loadedTextures = 2 ∧
    (domeTwice.m_textureIDs 0).tag = "dome" ∧
    (domeTwice.m_textureIDs 1).tag = "dome" ∧
    ¬ (∀ i j : Fin 16, i.val < domeTwice.m_loadedTextures →
        j.val < domeTwice.m_loadedTextures →
        (domeTwice.m_textureIDs i).tag = (domeTwice.m_textureIDs j).tag → i = j) := by
  refine ⟨by decide, by decide, by decide, ?_⟩
  intro h
  exact absurd (h 0 1 (by decide) (by decide) (by decide)) (by decide)

end SceneManager

/-! ## Material lookup -/

namespace SceneManager

section Materials

variable {α : Type}

/-- The loop leaves `material` alone when no entry carries the tag. -/
theorem FindMaterial.loop_no_match (tag : String) (material : OBJECT_MATERIAL α) :
    ∀ ms : List (OBJECT_MATERIAL α), (∀ e ∈ ms, e.tag ≠ tag) →
      FindMaterial.loop tag ms material = material := by
  intro ms
  induction ms with
  | nil => intro _; rfl
  | cons e rest ih =>
    intro h
    have he : e.tag ≠ tag := h e (List.mem_cons_self _ _)
    simp only [FindMaterial.loop, he, if_false]
    exact ih fun e' he' => h e' (List.mem_cons_of_mem _ he')

/-- The loop copies the five values of the first entry that carries the tag. -/
theorem FindMaterial.loop_first_match (tag : String) (material : OBJECT_MATERIAL α) :
    ∀ (ms : List (OBJECT_MATERIAL α)) (m : OBJECT_MATERIAL α),
      ms.find? (fun e => decide (e.tag = tag)) = some m →
      FindMaterial.loop tag ms material =
        { material with
          ambientColor := m.ambientColor
          ambientStrength := m.ambientStrength
          diffuseColor := m.diffuseColor
          specularColor := m.specularColor
          shininess := m.shininess } := by
  intro ms
  induction ms with
  | nil => intro m h; simp at h
  | cons e rest ih =>
    intro m h
    by_cases he : e.tag = tag
    · simp only [List.find?_cons, he, decide_True, Option.some.injEq] at h
      subst h
      simp only [FindMaterial.loop, he, if_true]
    · simp only [List.find?_cons, he, decide_False] at h
      simp only [FindMaterial.loop, he, if_false]
      exact ih m h

/-- C12. `FindMaterial` returns false exactly when the material list is empty, and then leaves
the caller's material untouched; when some entry carries the tag it returns true and the
caller's material holds the ambient colour, ambient strength, diffuse colour, specular colour
and shininess of the first such entry; when the list is not empty and no entry carries the
tag it still returns true and the caller's material is exactly as it was passed. -/
theorem FindMaterial_first_match_or_untouched (ms : List (OBJECT_MATERIAL α)) (tag : String)
    (material : OBJECT_MATERIAL α) :
    ((FindMaterial ms tag material).1 = false ↔ ms = []) ∧
    ((FindMaterial ms tag material).1 = false → (FindMaterial ms tag material).2 = material) ∧
    (∀ m, ms.find? (fun e => decide (e.tag = tag)) = some m →
      (FindMaterial ms tag material).1 = true ∧
      (FindMaterial ms tag material).2.ambientColor = m.ambientColor ∧
      (FindMaterial ms tag material).2.ambientStrength = m.ambientStrength ∧
      (FindMaterial ms tag material).2.diffuseColor = m.diffuseColor ∧
      (FindMaterial ms tag material).2.specularColor = m.specularColor ∧
      (FindMaterial ms tag material).2.shininess = m.shininess) ∧
    (ms ≠ [] → (∀ e ∈ ms, e.tag ≠ tag) →
      (FindMaterial ms tag material).1 = true ∧
      (FindMaterial ms tag material).2 = material) := by
  cases ms with
  | nil =>
    refine ⟨⟨fun _ => rfl, fun _ => rfl⟩, fun _ => rfl, ?_, fun h => absurd rfl h⟩
    intro m h
    simp at h
  | cons e rest =>
    have hlen : ¬ (e :: rest).length = 0 := by simp
    have h1 : (FindMaterial (e :: rest) tag material).1 = true := by
      simp only [FindMaterial, hlen, if_false]
    have h2 : (FindMaterial (e :: rest) tag material).2
        = FindMaterial.loop tag (e :: rest) material := by
      simp only [FindMaterial, hlen, if_false]
    refine ⟨⟨?_, ?_⟩, ?_, ?_, ?_⟩
    · intro h; rw [h1] at h; exact absurd h (by decide)
    · intro h; exact absurd h (List.cons_ne_nil _ _)
    · intro h; rw [h1] at h; exact absurd h (by decide)
    · intro m hm
      rw [h2, FindMaterial.loop_first_match tag material _ m hm]
      exact ⟨h1, rfl, rfl, rfl, rfl, rfl⟩
    · intro _ hno
      rw [h2, FindMaterial.loop_no_match tag material _ hno]
      exact ⟨h1, rfl⟩

end Materials

end SceneManager

/-! ## Panning and the mouse callback -/

namespace ViewManager

section Pan

variable {α : Type} [LinearOrderedField α]

theorem updateCameraVectors_Target (M : CMath α) (v : ViewManager α) :
    (updateCameraVectors M v).Target = v.Target := rfl

/-- The position `updateCameraVectors` derives, in coordinates. -/
theorem updateCameraVectors_Position (M : CMath α) (v : ViewManager α) :
    (updateCameraVectors M v).Position =
      ⟨v.Target.x + v.DistanceToTarget * M.cos (glm.radians M v.Yaw)
          * M.cos (glm.radians M v.Pitch),
        v.Target.y + v.DistanceToTarget * M.sin (glm.radians M v.Pitch),
        v.Target.z + v.DistanceToTarget * M.sin (glm.radians M v.Yaw)
          * M.cos (glm.radians M v.Pitch)⟩ := rfl

/-- `ProcessKeyboard` is `updateCameraVectors` after the target has been moved. -/
theorem ProcessKeyboard_eq (M : CMath α) (v : ViewManager α) (direction : Int)
    (deltaTime : α) :
    v.ProcessKeyboard M direction deltaTime = updateCameraVectors M
      { v with Target :=
          if direction = 0 then v.Target + v.Front * (v.MovementSpeed * deltaTime)
          else if direction = 1 then v.Target - v.Front * (v.MovementSpeed * deltaTime)
          else if direction = 2 then v.Target - v.Right * (v.MovementSpeed * deltaTime)
          else if direction = 3 then v.Target + v.Right * (v.MovementSpeed * deltaTime)
          else if direction = 4 then v.Target + v.Up * (v.MovementSpeed * deltaTime)
          else if direction = 5 then v.Target - v.Up * (v.MovementSpeed * deltaTime)
          else v.Target } := by
  by_cases h0 : direction = 0
  · subst h0; rfl
  by_cases h1 : direction = 1
  · subst h1; rfl
  by_cases h2 : direction = 2
  · subst h2; rfl
  by_cases h3 : direction = 3
  · subst h3; rfl
  by_cases h4 : direction = 4
  · subst h4; rfl
  by_cases h5 : direction = 5
  · subst h5; rfl
  simp only [ProcessKeyboard, h0, h1, h2, h3, h4, h5, if_false]

/-- C13. With `velocity = MovementSpeed * deltaTime`, `ProcessKeyboard` moves `Target` by
`Front * velocity` forward (0) or backward (1), by `Right * velocity` left (2) or right (3),
by `Up * velocity` up (4) or down (5), with the `Front`, `Right` and `Up` held before the
call, and leaves it alone for any other direction; yaw, pitch, distance and movement speed
are unchanged and `Position` is derived anew from the new `Target`. -/
theorem ProcessKeyboard_moves_target (M : CMath α) (v : ViewManager α) (deltaTime : α) :
    (v.ProcessKeyboard M 0 deltaTime).Target
      = v.Target + v.Front * (v.MovementSpeed * deltaTime) ∧
    (v.ProcessKeyboard M 1 deltaTime).Target
      = v.Target - v.Front * (v.MovementSpeed * deltaTime) ∧
    (v.ProcessKeyboard M 2 deltaTime).Target
      = v.Target - v.Right * (v.MovementSpeed * deltaTime) ∧
    (v.ProcessKeyboard M 3 deltaTime).Target
      = v.Target + v.Right * (v.MovementSpeed * deltaTime) ∧
    (v.ProcessKeyboard M 4 deltaTime).Target
      = v.Target + v.Up * (v.MovementSpeed * deltaTime) ∧
    (v.ProcessKeyboard M 5 deltaTime).Target
      = v.Target - v.Up * (v.MovementSpeed * deltaTime) ∧
    (∀ direction : Int, (direction < 0 ∨ 5 < direction) →
      (v.ProcessKeyboard M direction deltaTime).Target = v.Target) ∧
    (∀ direction : Int,
      (v.ProcessKeyboard M direction deltaTime).Yaw = v.Yaw ∧
      (v.ProcessKeyboard M direction deltaTime).Pitch = v.Pitch ∧
      (v.ProcessKeyboard M direction deltaTime).DistanceToTarget = v.DistanceToTarget ∧
      (v.ProcessKeyboard M direction deltaTime).MovementSpeed = v.MovementSpeed ∧
      (v.ProcessKeyboard M direction deltaTime).Position =
        ⟨(v.ProcessKeyboard M direction deltaTime).Target.x
            + v.DistanceToTarget * M.cos (glm.radians M v.Yaw)
              * M.cos (glm.radians M v.Pitch),
          (v.ProcessKeyboard M direction deltaTime).Target.y
            + v.DistanceToTarget * M.sin (glm.radians M v.Pitch),
          (v.ProcessKeyboard M direction deltaTime).Target.z
            + v.DistanceToTarget * M.sin (glm.radians M v.Yaw)
              * M.cos (glm.radians M v.Pitch)⟩) := by
  refine ⟨?_, ?_, ?_, ?_, ?_, ?_, ?_, ?_⟩
  · rw [ProcessKeyboard_eq, updateCameraVectors_Target]; rfl
  · rw [ProcessKeyboard_eq, updateCameraVectors_Target]; rfl
  · rw [ProcessKeyboard_eq, updateCameraVectors_Target]; rfl
  · rw [ProcessKeyboard_eq, updateCameraVectors_Target]; rfl
  · rw [ProcessKeyboard_eq, updateCameraVectors_Target]; rfl
  · rw [ProcessKeyboard_eq, updateCameraVectors_Target]; rfl
  · intro direction hd
    rw [ProcessKeyboard_eq, updateCameraVectors_Target]
    have h0 : direction ≠ 0 := by omega
    have h1 : direction ≠ 1 := by omega
    have h2 : direction ≠ 2 := by omega
    have h3 : direction ≠ 3 := by omega
    have h4 : direction ≠ 4 := by omega
    have h5 : direction ≠ 5 := by omega
    simp only [h0, h1, h2, h3, h4, h5, if_false]
  · intro direction
    rw [ProcessKeyboard_eq]
    exact ⟨rfl, rfl, rfl, rfl, rfl⟩

end Pan

section Mouse

variable {α : Type} [LinearOrderedField α]

/-- A callback that finds `gFirstMouse` set passes the offsets `(0, 0)`. -/
theorem Mouse_Position_Callback_first (M : CMath α) (g : Globals α)
    (hfirst : g.gFirstMouse = true) (v : ViewManager α) (x y : α) :
    Mouse_Position_Callback M g (some v) x y =
      ({ g with gLastX := x, gLastY := y, gFirstMouse := false },
        some (v.ProcessMouseMovement M 0 0 true)) := by
  simp only [Mouse_Position_Callback, hfirst, if_true, sub_self]

/-- A callback that finds `gFirstMouse` cleared passes the offsets from the last position. -/
theorem Mouse_Position_Callback_next (M : CMath α) (g : Globals α)
    (hnext : g.gFirstMouse = false) (v : ViewManager α) (x y : α) :
    Mouse_Position_Callback M g (some v) x y =
      ({ g with gLastX := x, gLastY := y },
        some (v.ProcessMouseMovement M (x - g.gLastX) (g.gLastY - y) true)) := by
  simp [Mouse_Position_Callback, hnext]

theorem ProcessMouseMovement_Yaw (M : CMath α) (v : ViewManager α) (x y : α) (b : Bool) :
    (v.ProcessMouseMovement M x y b).Yaw = v.Yaw + v.MouseSensitivity * x := by
  have e : v.Yaw + x * v.MouseSensitivity = v.Yaw + v.MouseSensitivity * x := by ring
  simp only [ProcessMouseMovement]
  split_ifs <;> exact e

/-- The pitch after a constrained `ProcessMouseMovement` is the clamped sum. -/
theorem ProcessMouseMovement_Pitch (M : CMath α) (v : ViewManager α) (x y : α) :
    (v.ProcessMouseMovement M x y true).Pitch
      = min (max (v.Pitch + v.MouseSensitivity * y) (-89)) 89 := by
  have e : v.Pitch + y * v.MouseSensitivity = v.Pitch + v.MouseSensitivity * y := by ring
  simp only [ProcessMouseMovement, updateCameraVectors_Pitch, if_true]
  split_ifs with h1 h2 h2 <;> dsimp only at * <;> rw [e] at *
  · norm_num at h2
  · rw [max_eq_left (by linarith), min_eq_right h1.le]
  · rw [max_eq_right h2.le, min_eq_left (by norm_num)]
  · rw [max_eq_left (le_of_not_lt h2), min_eq_left (le_of_not_lt h1)]

/-- C14. While `gFirstMouse` is set, a `Mouse_Position_Callback` at `(x, y)` passes the
offsets `(0, 0)` to `ProcessMouseMovement` and records `(x, y)` as the last position, so the
yaw and the pitch of the constructed camera stay as they are; the callback that follows, at
`(x2, y2)`, passes `(x2 - x, y - y2)`, which adds `MouseSensitivity * (x2 - x)` to the yaw
and `MouseSensitivity * (y - y2)` to the pitch before the pitch is clamped to `[-89, 89]`. -/
theorem Mouse_Position_Callback_baseline (M : CMath α) (g : Globals α)
    (hfirst : g.gFirstMouse = true) (v : ViewManager α) (x y x2 y2 : α) :
    (Mouse_Position_Callback M g (some v) x y).2
      = some (v.ProcessMouseMovement M 0 0 true) ∧
    (Mouse_Position_Callback M g (some v) x y).1.gLastX = x ∧
    (Mouse_Position_Callback M g (some v) x y).1.gLastY = y ∧
    (Mouse_Position_Callback M g (some v) x y).1.gFirstMouse = false ∧
    ((construct M).ProcessMouseMovement M 0 0 true).Yaw = (construct M).Yaw ∧
    ((construct M).ProcessMouseMovement M 0 0 true).Pitch = (construct M).Pitch ∧
    (∀ u : ViewManager α,
      (Mouse_Position_Callback M (Mouse_Position_Callback M g (some v) x y).1 (some u)
        x2 y2).2 = some (u.ProcessMouseMovement M (x2 - x) (y - y2) true) ∧
      (u.ProcessMouseMovement M (x2 - x) (y - y2) true).Yaw
        = u.Yaw + u.MouseSensitivity * (x2 - x) ∧
      (u.ProcessMouseMovement M (x2 - x) (y - y2) true).Pitch
        = min (max (u.Pitch + u.MouseSensitivity * (y - y2)) (-89)) 89) := by
  rw [Mouse_Position_Callback_first M g hfirst v x y]
  refine ⟨rfl, rfl, rfl, rfl, ?_, ?_, ?_⟩
  · rw [ProcessMouseMovement_Yaw, mul_zero, add_zero]
  · rw [ProcessMouseMovement_Pitch, mul_zero, add_zero]
    have h0 : (construct M).Pitch = 0 := rfl
    rw [h0, max_eq_left (by norm_num), min_eq_left (by norm_num)]
  · intro u
    rw [Mouse_Position_Callback_next M _ rfl u x2 y2]
    exact ⟨rfl, ProcessMouseMovement_Yaw M u _ _ true, ProcessMouseMovement_Pitch M u _ _⟩

theorem Mouse_Position_Callback_baseline_witness :
    (Globals.initial : Globals ℝ).gFirstMouse = true ∧
    (Mouse_Position_Callback (CMath.mk Real.cos Real.sin Real.sqrt Real.pi) Globals.initial
      (some (construct (CMath.mk Real.cos Real.sin Real.sqrt Real.pi))) 640 300).2
      = some ((construct (CMath.mk Real.cos Real.sin Real.sqrt Real.pi)).ProcessMouseMovement
          (CMath.mk Real.cos Real.sin Real.sqrt Real.pi) 0 0 true) ∧
    (Mouse_Position_Callback (CMath.mk Real.cos Real.sin Real.sqrt Real.pi) Globals.initial
      (some (construct (CMath.mk Real.cos Real.sin Real.sqrt Real.pi))) 640 300).1.gLastX
      = 640 :=
  ⟨rfl,
    (Mouse_Position_Callback_baseline _ Globals.initial rfl _ 640 300 700 250).1,
    (Mouse_Position_Callback_baseline _ Globals.initial rfl _ 640 300 700 250).2.1⟩

end Mouse

section Sphere

/-! ### The camera stays at its distance from the target -/

/-- After `updateCameraVectors` the camera is `|DistanceToTarget|` away from the target. -/
theorem updateCameraVectors_distance (M : CMath ℝ) (hM : M.IsReal) (v : ViewManager ℝ) :
    glm.length M ((updateCameraVectors M v).Position - (updateCameraVectors M v).Target)
      = |v.DistanceToTarget| := by
  obtain ⟨hcos, hsin, hsqrt, -⟩ := hM
  have hy := Real.cos_sq_add_sin_sq (glm.radians M v.Yaw)
  have hp := Real.cos_sq_add_sin_sq (glm.radians M v.Pitch)
  have e : glm.dot ((updateCameraVectors M v).Position - (updateCameraVectors M v).Target)
      ((updateCameraVectors M v).Position - (updateCameraVectors M v).Target)
      = v.DistanceToTarget ^ 2 *
        ((Real.cos (glm.radians M v.Yaw) ^ 2 + Real.sin (glm.radians M v.Yaw) ^ 2) *
          Real.cos (glm.radians M v.Pitch) ^ 2 + Real.sin (glm.radians M v.Pitch) ^ 2) := by
    show (v.Target.x + v.DistanceToTarget * M.cos (glm.radians M v.Yaw)
              * M.cos (glm.radians M v.Pitch) - v.Target.x) *
          (v.Target.x + v.DistanceToTarget * M.cos (glm.radians M v.Yaw)
              * M.cos (glm.radians M v.Pitch) - v.Target.x) +
        (v.Target.y + v.DistanceToTarget * M.sin (glm.radians M v.Pitch) - v.Target.y) *
          (v.Target.y + v.DistanceToTarget * M.sin (glm.radians M v.Pitch) - v.Target.y) +
        (v.Target.z + v.DistanceToTarget * M.sin (glm.radians M v.Yaw)
              * M.cos (glm.radians M v.Pitch) - v.Target.z) *
          (v.Target.z + v.DistanceToTarget * M.sin (glm.radians M v.Yaw)
              * M.cos (glm.radians M v.Pitch) - v.Target.z) = _
    rw [hcos, hsin]; ring
  simp only [glm.length]
  rw [e, hy, one_mul, hp, mul_one, hsqrt, Real.sqrt_sq_eq_abs]

theorem ProcessMouseMovement_eq_update_any (M : CMath ℝ) (v : ViewManager ℝ) (x y : ℝ)
    (b : Bool) :
    ∃ u, v.ProcessMouseMovement M x y b = updateCameraVectors M u ∧
      u.DistanceToTarget = v.DistanceToTarget := by
  simp only [ProcessMouseMovement]
  split_ifs <;> exact ⟨_, rfl, rfl⟩

/-- Every camera call keeps the distance member at 10 and the camera 10 away from the
target. -/
theorem call_distance (M : CMath ℝ) (hM : M.IsReal) (v : ViewManager ℝ) (c : CameraCall ℝ)
    (h : v.DistanceToTarget = 10 ∧ glm.length M (v.Position - v.Target) = 10) :
    (v.call M c).DistanceToTarget = 10 ∧
      glm.length M ((v.call M c).Position - (v.call M c).Target) = 10 := by
  have h10 : |(10 : ℝ)| = 10 := abs_of_pos (by norm_num)
  cases c with
  | ProcessKeyboard d t =>
    obtain ⟨u, hu, -, uD, -⟩ := ProcessKeyboard_eq_update M v d t
    simp only [call]
    rw [hu, updateCameraVectors_distance M hM u, uD, h.1]
    exact ⟨uD.trans h.1, h10⟩
  | ProcessMouseMovement x y =>
    obtain ⟨u, hu, uD⟩ := ProcessMouseMovement_eq_update_any M v x y true
    simp only [call]
    rw [hu, updateCameraVectors_distance M hM u, uD, h.1]
    exact ⟨uD.trans h.1, h10⟩
  | ProcessMouseScroll y =>
    have e : v.call M (CameraCall.ProcessMouseScroll y) =
        { v with MovementSpeed := (v.ProcessMouseScroll y).MovementSpeed } := by
      simp only [call, ProcessMouseScroll]
      split_ifs <;> rfl
    rw [e]
    exact h

/-- C16. Over the reals, after `updateCameraVectors` the distance between `Position` and
`Target` is `|DistanceToTarget|`, for every target, yaw, pitch and distance; so it is after
`ProcessKeyboard` and `ProcessMouseMovement`, `ProcessMouseScroll` moves neither point, and in
every state reached from the constructor by pan, rotate and zoom calls the camera is at
distance 10 from the target. -/
theorem camera_on_sphere (M : CMath ℝ) (hM : M.IsReal) :
    (∀ v : ViewManager ℝ,
      glm.length M ((updateCameraVectors M v).Position - (updateCameraVectors M v).Target)
        = |v.DistanceToTarget|) ∧
    (∀ (v : ViewManager ℝ) (direction : Int) (deltaTime : ℝ),
      glm.length M ((v.ProcessKeyboard M direction deltaTime).Position
        - (v.ProcessKeyboard M direction deltaTime).Target) = |v.DistanceToTarget|) ∧
    (∀ (v : ViewManager ℝ) (x y : ℝ) (constrainPitch : Bool),
      glm.length M ((v.ProcessMouseMovement M x y constrainPitch).Position
        - (v.ProcessMouseMovement M x y constrainPitch).Target) = |v.DistanceToTarget|) ∧
    (∀ (v : ViewManager ℝ) (y : ℝ),
      (v.ProcessMouseScroll y).Position = v.Position ∧
      (v.ProcessMouseScroll y).Target = v.Target ∧
      (v.ProcessMouseScroll y).DistanceToTarget = v.DistanceToTarget) ∧
    (∀ calls : List (CameraCall ℝ),
      ((construct M).run M calls).DistanceToTarget = 10 ∧
      glm.length M (((construct M).run M calls).Position
        - ((construct M).run M calls).Target) = 10) := by
  refine ⟨updateCameraVectors_distance M hM, ?_, ?_, ?_, ?_⟩
  · intro v d t
    obtain ⟨u, hu, -, uD, -⟩ := ProcessKeyboard_eq_update M v d t
    rw [hu, updateCameraVectors_distance M hM u, uD]
  · intro v x y b
    obtain ⟨u, hu, uD⟩ := ProcessMouseMovement_eq_update_any M v x y b
    rw [hu, updateCameraVectors_distance M hM u, uD]
  · intro v y
    simp only [ProcessMouseScroll]
    split_ifs <;> exact ⟨rfl, rfl, rfl⟩
  · intro calls
    apply run_preserves M
      (fun v => v.DistanceToTarget = 10 ∧ glm.length M (v.Position - v.Target) = 10)
      (call_distance M hM) calls
    refine ⟨rfl, ?_⟩
    simp only [construct]
    rw [updateCameraVectors_distance M hM]
    exact abs_of_pos (by norm_num)

theorem camera_on_sphere_witness :
    (CMath.mk Real.cos Real.sin Real.sqrt Real.pi).IsReal ∧
    glm.length (CMath.mk Real.cos Real.sin Real.sqrt Real.pi)
      (((construct (CMath.mk Real.cos Real.sin Real.sqrt Real.pi)).run
          (CMath.mk Real.cos Real.sin Real.sqrt Real.pi)
          [CameraCall.ProcessKeyboard 2 0.25, CameraCall.ProcessMouseMovement 300 (-4000),
            CameraCall.ProcessMouseScroll (-9)]).Position
        - ((construct (CMath.mk Real.cos Real.sin Real.sqrt Real.pi)).run
          (CMath.mk Real.cos Real.sin Real.sqrt Real.pi)
          [CameraCall.ProcessKeyboard 2 0.25, CameraCall.ProcessMouseMovement 300 (-4000),
            CameraCall.ProcessMouseScroll (-9)]).Target) = 10 :=
  ⟨⟨rfl, rfl, rfl, rfl⟩,
    ((camera_on_sphere _ ⟨rfl, rfl, rfl, rfl⟩).2.2.2.2 _).2⟩

end Sphere

end ViewManager

/-! ## Properties of the scene -/

namespace Scene

/-! ### A texture lookup that misses -/

/-- When the lookup misses, `SetShaderTexture` leaves the shader manager as it was. -/
theorem SetShaderTexture_miss (sc : Scene) (textureTag : String)
    (hmiss : (sc.textures.FindTextureSlot textureTag).1 = -1) :
    (sc.SetShaderTexture textureTag).m_pShaderManager = sc.m_pShaderManager ∧
    (sc.SetShaderTexture textureTag).m_basicMeshes = sc.m_basicMeshes := by
  unfold SetShaderTexture
  cases hsh : sc.m_pShaderManager with
  | none => simp [hsh]
  | some sh => simp [hmiss, hsh]

/-- C15, as the code has it. When `SetShaderTexture` is called with a tag that
`FindTextureSlot` does not find, it sets no uniform: the shader manager is as it was before
the call, and the mesh drawn next is drawn with the `bUseTexture` value in force before the
call, whatever that value was. -/
theorem SetShaderTexture_miss_keeps_uniforms (sc : Scene) (textureTag : String)
    (kind : MeshKind) (hmiss : (sc.textures.FindTextureSlot textureTag).1 = -1) :
    (sc.SetShaderTexture textureTag).m_pShaderManager = sc.m_pShaderManager ∧
    ((sc.SetShaderTexture textureTag).DrawMesh kind).m_basicMeshes
      = sc.m_basicMeshes ++ [MeshCall.Draw kind sc.m_pShaderManager] ∧
    (((sc.SetShaderTexture textureTag).DrawMesh kind).m_basicMeshes.getLast?.bind
        MeshCall.bUseTexture)
      = sc.m_pShaderManager.bind fun sh => sh.get "bUseTexture" := by
  obtain ⟨h1, h2⟩ := SetShaderTexture_miss sc textureTag hmiss
  have h3 : ((sc.SetShaderTexture textureTag).DrawMesh kind).m_basicMeshes
      = sc.m_basicMeshes ++ [MeshCall.Draw kind sc.m_pShaderManager] := by
    simp only [DrawMesh, h1, h2]
  refine ⟨h1, h3, ?_⟩
  rw [h3, List.getLast?_append, List.getLast?_singleton]
  rfl

theorem SetShaderTexture_miss_keeps_uniforms_witness :
    (demoScene.textures.FindTextureSlot "hall").1 = -1 ∧
    (demoScene.SetShaderTexture "hall").m_pShaderManager = demoScene.m_pShaderManager ∧
    ((demoScene.SetShaderTexture "hall").DrawMesh MeshKind.sphere).m_basicMeshes
      = demoScene.m_basicMeshes ++ [MeshCall.Draw MeshKind.sphere demoScene.m_pShaderManager] ∧
    (((demoScene.SetShaderTexture "hall").DrawMesh MeshKind.sphere).m_basicMeshes.getLast?.bind
        MeshCall.bUseTexture)
      = demoScene.m_pShaderManager.bind fun sh => sh.get "bUseTexture" :=
  ⟨by decide, SetShaderTexture_miss_keeps_uniforms demoScene "hall" MeshKind.sphere (by decide)⟩

/-- C15, counterexample. With the four scene textures loaded, `SetShaderTexture("shuttlebay")`
binds slot 2; the call `SetShaderTexture("hall")` that follows misses, and the sphere drawn
next is drawn with `bUseTexture` 1 (true) and the sampler still on slot 2. -/
theorem miss_after_bound_texture_draws_textured :
    ((demoScene.SetShaderTexture "shuttlebay").textures.FindTextureSlot "hall").1 = -1 ∧
    ((((demoScene.SetShaderTexture "shuttlebay").SetShaderTexture "hall").DrawMesh
        MeshKind.sphere).m_basicMeshes.getLast?.bind MeshCall.bUseTexture)
      = some (UniformValue.int 1) ∧
    (((demoScene.SetShaderTexture "shuttlebay").SetShaderTexture "hall").m_pShaderManager.bind
        fun sh => sh.get "objectTexture") = some (UniformValue.sampler2D 2) := by
  refine ⟨by decide, by decide, by decide⟩

/-! ### The tags and meshes of `RenderScene` -/

/-- A load keeps a property of the live tags that its own tag has. -/
theorem CreateGLTexture_live_tags (P : String → Prop) (s : SceneManager)
    (filename tag : String) (image : Option Image) (textureID : Nat) (hP : P tag)
    (h : ∀ i : Fin 16, i.val < s.m_loadedTextures → P (s.m_textureIDs i).tag) :
    ∀ i : Fin 16, i.val < (s.CreateGLTexture filename tag image textureID).2.m_loadedTextures →
      P ((s.CreateGLTexture filename tag image textureID).2.m_textureIDs i).tag := by
  cases hr : (s.CreateGLTexture filename tag image textureID).1 with
  | false =>
    obtain ⟨e1, e2⟩ := SceneManager.CreateGLTexture_false_slots s filename tag image textureID hr
    rw [e1, e2]
    exact h
  | true =>
    obtain ⟨hN, e1, e2⟩ :=
      SceneManager.CreateGLTexture_true_slots s filename tag image textureID hr
    rw [e1, e2]
    intro i hi
    by_cases hEq : i = ⟨s.m_loadedTextures, hN⟩
    · rw [hEq, Function.update_same]
      exact hP
    · rw [Function.update_noteq hEq]
      have hne : i.val ≠ s.m_loadedTextures := fun hv => hEq (Fin.ext hv)
      exact h i (by omega)

/-- Whatever the four loads do, the live tags after `PrepareScene` on a newly constructed
scene are among "dome", "hull", "shuttlebay" and "planet". -/
theorem PrepareScene_live_tags (sh : Option ShaderManager) (stbi_load : String → Option Image)
    (glGenTextures : String → Nat) :
    ∀ i : Fin 16,
      i.val < ((construct sh).PrepareScene stbi_load glGenTextures).textures.m_loadedTextures →
      (((construct sh).PrepareScene stbi_load glGenTextures).textures.m_textureIDs i).tag
        ∈ LoadSceneTextures.tags := by
  have h0 : ∀ i : Fin 16, i.val < (construct sh).textures.m_loadedTextures →
      ((construct sh).textures.m_textureIDs i).tag ∈ LoadSceneTextures.tags :=
    fun i hi => absurd hi (Nat.not_lt_zero _)
  have h1 := CreateGLTexture_live_tags (fun t => t ∈ LoadSceneTextures.tags) _
    "C:\\CS330Content\\Projects\\Utilities\\textures\\circular-brushed-gold-texture.jpg" "dome"
    (stbi_load
      "C:\\CS330Content\\Projects\\Utilities\\textures\\circular-brushed-gold-texture.jpg")
    (glGenTextures
      "C:\\CS330Content\\Projects\\Utilities\\textures\\circular-brushed-gold-texture.jpg")
    (by decide) h0
  have h2 := CreateGLTexture_live_tags (fun t => t ∈ LoadSceneTextures.tags) _
    "C:\\CS330Content\\Projects\\Utilities\\textures\\stainless.jpg" "hull"
    (stbi_load "C:\\CS330Content\\Projects\\Utilities\\textures\\stainless.jpg")
    (glGenTextures "C:\\CS330Content\\Projects\\Utilities\\textures\\stainless.jpg")
    (by decide) h1
  have h3 := CreateGLTexture_live_tags (fun t => t ∈ LoadSceneTextures.tags) _
    "C:\\CS330Content\\Utilities\\textures\\stainless_end.jpg" "shuttlebay"
    (stbi_load "C:\\CS330Content\\Utilities\\textures\\stainless_end.jpg")
    (glGenTextures "C:\\CS330Content\\Utilities\\textures\\stainless_end.jpg")
    (by decide) h2
  have h4 := CreateGLTexture_live_tags (fun t => t ∈ LoadSceneTextures.tags) _
    "C:\\CS330Content\\Utilities\\textures\\abstract.jpg" "planet"
    (stbi_load "C:\\CS330Content\\Utilities\\textures\\abstract.jpg")
    (glGenTextures "C:\\CS330Content\\Utilities\\textures\\abstract.jpg")
    (by decide) h3
  exact h4

/-- C17, on the code. The shuttlebay-floor block of `RenderScene` passes the tag "hall" to
`SetShaderTexture`; it is the only tag passed that `LoadSceneTextures` does not register,
so after `PrepareScene` the lookup of "hall" returns -1 whatever the four loads did, and
with all four textures loaded `RenderScene` writes the "could not find texture slot" line
for "hall". -/
theorem RenderScene_looks_up_unregistered_tag :
    "hall" ∈ RenderScene.textureTags ∧
    "hall" ∉ LoadSceneTextures.tags ∧
    (∀ t ∈ RenderScene.textureTags, t ≠ "hall" → t ∈ LoadSceneTextures.tags) ∧
    (∀ (sh : Option ShaderManager) (stbi_load : String → Option Image)
        (glGenTextures : String → Nat),
      (((construct sh).PrepareScene stbi_load glGenTextures).textures.FindTextureSlot
        "hall").1 = -1) ∧
    demoScene.textures.m_loadedTextures = 4 ∧
    (∀ t ∈ LoadSceneTextures.tags, (demoScene.textures.FindTextureSlot t).1 ≠ -1) ∧
    Diag.slotNotFound "hall" ∈ demoScene.RenderScene.textures.cout := by
  refine ⟨by decide, by decide, by decide, ?_, by decide, by decide, by decide⟩
  intro sh stbi_load glGenTextures
  rcases SceneManager.FindTextureSlot_cases
      ((construct sh).PrepareScene stbi_load glGenTextures).textures "hall" with
    ⟨h, -, -⟩ | ⟨i, -, hi, ht, -, -⟩
  · exact h
  · have hmem := PrepareScene_live_tags sh stbi_load glGenTextures i hi
    rw [ht] at hmem
    exact absurd hmem (by decide)

theorem SetTransformations_meshes (sc : Scene) (scaleXYZ : glm.vec3 ℚ) (rx ry rz : ℚ)
    (positionXYZ : glm.vec3 ℚ) :
    (sc.SetTransformations scaleXYZ rx ry rz positionXYZ).m_basicMeshes = sc.m_basicMeshes := by
  unfold SetTransformations
  cases sc.m_pShaderManager <;> rfl

theorem SetShaderColor_meshes (sc : Scene) (r g b a : ℚ) :
    (sc.SetShaderColor r g b a).m_basicMeshes = sc.m_basicMeshes := by
  unfold SetShaderColor
  cases sc.m_pShaderManager <;> rfl

theorem SetShaderTexture_meshes (sc : Scene) (textureTag : String) :
    (sc.SetShaderTexture textureTag).m_basicMeshes = sc.m_basicMeshes := by
  unfold SetShaderTexture
  cases sc.m_pShaderManager with
  | none => rfl
  | some sh => simp only []; split_ifs <;> rfl

theorem SetLighting_meshes (sc : Scene) : sc.SetLighting.m_basicMeshes = sc.m_basicMeshes := by
  unfold SetLighting
  cases sc.m_pShaderManager <;> rfl

/-- A block of `RenderScene` makes one call on the mesh collaborator, the draw of its mesh. -/
theorem RenderScene.block_meshes (sc : Scene) (d : DrawInstruction) :
    ∃ sh, (RenderScene.block sc d).m_basicMeshes
      = sc.m_basicMeshes ++ [MeshCall.Draw d.mesh sh] := by
  cases hs : d.shading with
  | texture t =>
    refine ⟨((sc.SetTransformations d.scaleXYZ d.XrotationDegrees d.YrotationDegrees
      d.ZrotationDegrees d.positionXYZ).SetShaderTexture t).m_pShaderManager, ?_⟩
    simp only [RenderScene.block, hs, DrawMesh, SetShaderTexture_meshes,
      SetTransformations_meshes]
  | color r g b a =>
    refine ⟨((sc.SetTransformations d.scaleXYZ d.XrotationDegrees d.YrotationDegrees
      d.ZrotationDegrees d.positionXYZ).SetShaderColor r g b a).m_pShaderManager, ?_⟩
    simp only [RenderScene.block, hs, DrawMesh, SetShaderColor_meshes,
      SetTransformations_meshes]

/-- The blocks add their meshes to the kinds drawn and nothing to the kinds loaded. -/
theorem RenderScene.blocks_kinds :
    ∀ (ds : List DrawInstruction) (sc : Scene),
      drawnKinds (ds.foldl RenderScene.block sc).m_basicMeshes
        = drawnKinds sc.m_basicMeshes ++ ds.map (fun d => d.mesh) ∧
      loadedKinds (ds.foldl RenderScene.block sc).m_basicMeshes
        = loadedKinds sc.m_basicMeshes := by
  intro ds
  induction ds with
  | nil => intro sc; simp
  | cons d ds ih =>
    intro sc
    obtain ⟨sh, hb⟩ := RenderScene.block_meshes sc d
    obtain ⟨i1, i2⟩ := ih (RenderScene.block sc d)
    simp only [List.foldl_cons, List.map_cons]
    rw [i1, i2, hb]
    simp [drawnKinds, loadedKinds, List.filterMap_append]

/-- The calls `PrepareScene` makes on the mesh collaborator. -/
theorem PrepareScene_meshes (sc : Scene) (stbi_load : String → Option Image)
    (glGenTextures : String → Nat) :
    (sc.PrepareScene stbi_load glGenTextures).m_basicMeshes
      = sc.m_basicMeshes ++
        [MeshCall.Load MeshKind.plane, MeshCall.Load MeshKind.cone,
          MeshCall.Load MeshKind.cylinder, MeshCall.Load MeshKind.sphere,
          MeshCall.Load MeshKind.taperedCylinder, MeshCall.Load MeshKind.box,
          MeshCall.Load MeshKind.torus] := by
  simp [PrepareScene, LoadMesh, LoadSceneTextures]

/-- The kinds loaded and the kinds drawn by `PrepareScene` followed by `RenderScene` on a
newly constructed scene, whatever the shader manager and the texture loads are. -/
theorem PrepareScene_RenderScene_kinds (sh : Option ShaderManager)
    (stbi_load : String → Option Image) (glGenTextures : String → Nat) :
    loadedKinds ((construct sh).PrepareScene stbi_load glGenTextures).RenderScene.m_basicMeshes
      = [MeshKind.plane, MeshKind.cone, MeshKind.cylinder, MeshKind.sphere,
          MeshKind.taperedCylinder, MeshKind.box, MeshKind.torus] ∧
    drawnKinds ((construct sh).PrepareScene stbi_load glGenTextures).RenderScene.m_basicMeshes
      = RenderScene.instructions.map (fun d => d.mesh) := by
  obtain ⟨h1, h2⟩ := RenderScene.blocks_kinds RenderScene.instructions
    ((construct sh).PrepareScene stbi_load glGenTextures).SetLighting
  rw [SetLighting_meshes, PrepareScene_meshes] at h1 h2
  constructor
  · rw [RenderScene, h2]; rfl
  · rw [RenderScene, h1]; rfl

end Scene
